import Mathlib

/-!
Verification of the battery-management-system monitor task
(`power-management-monitor.c`) against its specification.

The monitor task, its per-tick allocation decisions, the calibration
routine and the `computeSoC` model are embedded shallowly: machine
integers become `ℤ` (with explicit `% 2^32` where the C code performs
`uint32_t` wraparound arithmetic), C truncating division becomes
`Int.tdiv`, arithmetic right shift becomes floor division, and the
module-static arrays become total functions `ℤ → _` so that the
out-of-bounds accesses present in the source (`battery[index]` with a
1-based `index`, `battery[batteryUnderCharge-1]` with
`batteryUnderCharge == 0`) are modelled as reads of adjacent, unspecified
memory cells rather than being silently repaired.
-/

/-! ## Enumerated state types (from power-management-objdic.h usage) -/

inductive battery_Fl_States where
  | normalF
  | lowF
  | criticalF
  | faultyF
deriving DecidableEq

inductive battery_Op_States where
  | loadedO
  | chargingO
  | isolatedO
deriving DecidableEq

inductive battery_Hl_States where
  | goodH
  | faultyH
  | missingH
  | weakH
deriving DecidableEq

inductive battery_Ch_States where
  | bulkC
  | absorptionC
  | restC
  | floatC
deriving DecidableEq

inductive battery_Type where
  | wetT
  | gelT
  | agmT
deriving DecidableEq

open battery_Fl_States battery_Op_States battery_Hl_States battery_Ch_States battery_Type

/-! ## Geometry constants

The board header is not part of the sources; the counts come from the
specification's reference geometry (3 batteries, 2 loads, 1 panel), which
agrees with the monitor source itself: the calibration code comments
"Results for all 7 tests" and `NUM_TESTS = NUM_IFS + 1`
(power-management-monitor.h). -/

def NUM_BATS : ℕ := 3

def NUM_LOADS : ℕ := 2

def NUM_PANELS : ℕ := 1

def NUM_IFS : ℕ := NUM_BATS + NUM_LOADS + NUM_PANELS

/-- Number of switch-test configurations of a calibration run
(power-management-monitor.h: `NUM_TESTS  NUM_IFS+1`). -/
def NUM_TESTS : ℕ := NUM_IFS + 1

/-- Monitor-strategy bit 0. -/
def SEPARATE_LOAD : ℕ := 1

/-- Monitor-strategy bit 1. -/
def PRESERVE_ISOLATION : ℕ := 2

/-! ## computeSoC (monitor source, `computeSoC`)

The C signature is `int16_t computeSoC(uint32_t voltage, uint32_t
temperature, battery_Type type)`.  The two `uint32_t` parameters are
modelled as naturals reduced `% 2^32`; every intermediate `uint32_t`
operation wraps `% 2^32`.  The `int32_t` arithmetic on `soc` never
overflows on this domain, so it is carried out in plain `ℤ`. -/

/-- `uint32_t tDiff = (12518-temperature) >> 2;` with `uint32_t` wraparound
subtraction. -/
def tDiffOf (temperature : ℕ) : ℕ :=
  ((12518 + 2 ^ 32 - temperature % 2 ^ 32) % 2 ^ 32) / 4

/-- `uint32_t vFactor = 65536-((42*tDiff*tDiff) >> 20);` with the product
taken `% 2^32` before the shift. -/
def vFactorOf (temperature : ℕ) : ℕ :=
  65536 - (42 * tDiffOf temperature * tDiffOf temperature) % 2 ^ 32 / 2 ^ 20

/-- `int32_t ocv = (voltage*65536)/vFactor;` — the product is `uint32_t`
and wraps `% 2^32`. -/
def ocvOf (voltage temperature : ℕ) : ℕ :=
  voltage % 2 ^ 32 * 65536 % 2 ^ 32 / vFactorOf temperature

/-- `v100`, the reference voltage at full charge: 3242 for wet cells,
3280 otherwise. -/
def socV100 (type : battery_Type) : ℤ := if type = wetT then 3242 else 3280

/-- The signed `soc` accumulation of `computeSoC` as a function of the
(already computed) open-circuit voltage: the base linear model plus the
piecewise slope change applied for gel/AGM types below `v50 = 3178`
(with `v25 = 3075`). -/
def socRaw (type : battery_Type) (ocv : ℤ) : ℤ :=
  if (type = gelT ∨ type = agmT) ∧ ocv < 3178 then
    if 3075 < ocv then
      100 * (65536 - 320 * (socV100 type - ocv)) + 100 * 160 * (3178 - ocv)
    else
      100 * (65536 - 320 * (socV100 type - ocv)) + 100 * 160 * (3178 - 3075)
  else 100 * (65536 - 320 * (socV100 type - ocv))

/-- The final clamp of `computeSoC`, exactly as the two sequential `if`
statements perform it. -/
def clampSoC (soc : ℤ) : ℤ :=
  if 25600 < soc then 25600 else if soc < 0 then 0 else soc

/-- `computeSoC`: `soc >> 8` is an arithmetic shift on `int32_t`,
i.e. floor division by 256 (Lean's `/` on `ℤ` for a positive divisor),
then the result is clamped into `[0, 25600]`. -/
def computeSoC (voltage temperature : ℕ) (type : battery_Type) : ℤ :=
  clampSoC (socRaw type (ocvOf voltage temperature) / 256)


/-- Conversion of a signed C value to the `uint32_t` actually passed to
`computeSoC` (the monitor passes `int16_t`/`int32_t` readings into the
`uint32_t` parameters). -/
def u32 (z : ℤ) : ℕ := (z % 2 ^ 32).toNat

/-! ## Data model (monitor source, local persistent variables)

`struct batteryStates battery[NUM_BATS]` and the charging-phase array of
the charger task become total functions on `ℤ`: indices `0..2` are the
real slots, any other index is the adjacent memory cell that the
source's out-of-bounds accesses actually read. -/

structure batteryStates where
  charge : ℤ
  SoC : ℤ
  fillState : battery_Fl_States
  opState : battery_Op_States
  healthState : battery_Hl_States
  currentSteady : ℕ
  isolationTime : ℕ
deriving DecidableEq

/-- Configuration data read (not written) by the monitor tick.
`weakVoltage` stands for the `WEAK_VOLTAGE` constant of the board header
(not among the sources). -/
structure ConfigGroup where
  lowVoltage : ℤ
  criticalVoltage : ℤ
  lowSoC : ℤ
  criticalSoC : ℤ
  floatBulkSoC : ℤ
  weakVoltage : ℤ
  monitorStrategy : ℕ
  batteryCapacity : ℤ → ℤ
  batteryType : ℤ → battery_Type
  monitorDelay : ℕ

/-- Per-tick readings delivered by the measurement collaborator.  The
battery-indexed accessors take a `ℤ` index because the source sometimes
calls them with a shifted (1-based) index. -/
structure MeasureInputs where
  accumulatedCharge : ℤ → ℤ
  batteryVoltage : ℤ → ℤ
  batteryCurrent : ℤ → ℤ
  panelVoltage : ℤ
  temperature : ℤ

/-- The monitor task's persistent state: the battery records, the charger
collaborator's per-battery charging phase, the current offsets, and the
allocator globals. -/
structure MonitorState where
  battery : ℤ → batteryStates
  chargingPhase : ℤ → battery_Ch_States
  currentOffsets : ℕ → ℤ
  batteryUnderCharge : ℕ
  batteryUnderLoad : ℕ
  chargerOff : Bool
  decisionStatus : ℕ

/-! ## Tracker-state setters (monitor source, `setBatterySoC`,
`resetBatterySoC`) -/

/-- The int16→uint16 conversion performed by the assignment to the
`uint16_t SoC` field. -/
def u16 (z : ℤ) : ℤ := z % 65536

/-- `setBatterySoC`: note that the guard tests the *stored* `SoC` (the
unsigned field value), not the argument; the assignment to the
`uint16_t SoC` field wraps the int16 argument (`-1` stores 65535); and
`charge` (an `int32_t`) is recomputed from the unclamped signed
argument. -/
def setBatterySoC (cfg : ConfigGroup) (s : MonitorState) (i : ℤ) (soc : ℤ) : MonitorState :=
  let b := s.battery i
  let b1 := if 25600 < b.SoC then { b with SoC := 25600 } else { b with SoC := u16 soc }
  let b2 := { b1 with charge := soc * cfg.batteryCapacity i * 36 }
  { s with battery := Function.update s.battery i b2 }

/-- `resetBatterySoC`: mark the battery faulty when its SoC was below
100 %, then set it to 100 %. -/
def resetBatterySoC (cfg : ConfigGroup) (s : MonitorState) (i : ℤ) : MonitorState :=
  let s1 := if (s.battery i).SoC < 25600 then
      let bf := { s.battery i with fillState := faultyF }
      { s with battery := Function.update s.battery i bf }
    else s
  setBatterySoC cfg s1 i 25600

/-! ## Monitor tick, compute-battery-state section -/

/-- Pre-pass P1: a missing battery has its SoC zeroed and loses any load
or charger allocation. -/
def removeMissingStep (cfg : ConfigGroup) (s : MonitorState) (i : ℕ) : MonitorState :=
  if (s.battery (i : ℤ)).healthState = missingH then
    let s1 := setBatterySoC cfg s (i : ℤ) 0
    let s2 := if s1.batteryUnderLoad = i + 1 then { s1 with batteryUnderLoad := 0 } else s1
    if s2.batteryUnderCharge = i + 1 then { s2 with batteryUnderCharge := 0 } else s2
  else s

def removeMissing (cfg : ConfigGroup) (s : MonitorState) : MonitorState :=
  (List.range NUM_BATS).foldl (removeMissingStep cfg) s

/-- `numBats`: the number of non-missing batteries. -/
def numBatsOf (s : MonitorState) : ℕ :=
  ((List.range NUM_BATS).filter
    (fun i => (s.battery (i : ℤ)).healthState ≠ missingH)).length

/-- Pre-pass P3–P6 for one battery: Coulomb integration with clamping,
SoC recomputation (`charge/(capacity*36)`, C truncating division),
fill-state recomputation, weak-battery handling, and the rest-phase
health restoration.  The clamp `(uint32_t)charge > chargeMax` is taken
after `charge` was already forced non-negative, so it is a plain
comparison. -/
def updateBatteryStep (cfg : ConfigGroup) (inp : MeasureInputs) (s : MonitorState)
    (i : ℕ) : MonitorState :=
  if (s.battery (i : ℤ)).healthState ≠ missingH then
    let b := s.battery (i : ℤ)
    let charge1 := b.charge + inp.accumulatedCharge (i : ℤ)
    let chargeMax := cfg.batteryCapacity (i : ℤ) * 3600 * 256
    let charge2 := if charge1 < 0 then 0 else charge1
    let charge3 := if chargeMax < charge2 then chargeMax else charge2
    let soc := Int.tdiv charge3 (cfg.batteryCapacity (i : ℤ) * 36)
    let absV := |inp.batteryVoltage (i : ℤ)|
    let fill :=
      if absV < cfg.lowVoltage ∨ soc < cfg.lowSoC then lowF
      else if absV < cfg.criticalVoltage ∨ soc < cfg.criticalSoC then criticalF
      else normalF
    let b1 := { b with charge := charge3, SoC := soc, fillState := fill }
    let b2 := if b1.healthState ≠ missingH ∧ absV < cfg.weakVoltage then
        { b1 with healthState := weakH, fillState := criticalF, SoC := 0 }
      else b1
    let b3 := if b2.healthState ≠ missingH ∧ s.chargingPhase (i : ℤ) = restC then
        { b2 with healthState := goodH }
      else b2
    { s with battery := Function.update s.battery (i : ℤ) b3 }
  else s

def updateBatteries (cfg : ConfigGroup) (inp : MeasureInputs) (s : MonitorState) :
    MonitorState :=
  (List.range NUM_BATS).foldl (updateBatteryStep cfg inp) s

/-! ## Ranking (the two bubble sorts over `batteryFillStateSort`)

For `NUM_BATS = 3` each full bubble sort is the compare-swap sequence
(k=0), (k=1), (k=0) on the triple, which starts as `(1,2,3)`. -/

def socSwap12 (s : MonitorState) (t : ℕ × ℕ × ℕ) : ℕ × ℕ × ℕ :=
  if (s.battery ((t.1 : ℤ) - 1)).SoC < (s.battery ((t.2.1 : ℤ) - 1)).SoC then
    (t.2.1, t.1, t.2.2)
  else t

def socSwap23 (s : MonitorState) (t : ℕ × ℕ × ℕ) : ℕ × ℕ × ℕ :=
  if (s.battery ((t.2.1 : ℤ) - 1)).SoC < (s.battery ((t.2.2 : ℤ) - 1)).SoC then
    (t.1, t.2.2, t.2.1)
  else t

/-- First bubble sort: highest SoC first. -/
def socSortOf (s : MonitorState) : ℕ × ℕ × ℕ :=
  socSwap12 s (socSwap23 s (socSwap12 s (1, 2, 3)))

def missSwap12 (s : MonitorState) (t : ℕ × ℕ × ℕ) : ℕ × ℕ × ℕ :=
  if (s.battery ((t.1 : ℤ) - 1)).healthState = missingH then (t.2.1, t.1, t.2.2) else t

def missSwap23 (s : MonitorState) (t : ℕ × ℕ × ℕ) : ℕ × ℕ × ℕ :=
  if (s.battery ((t.2.1 : ℤ) - 1)).healthState = missingH then (t.1, t.2.2, t.2.1) else t

/-- Second bubble sort: missing batteries to the far end. -/
def fillStateSortOf (s : MonitorState) : ℕ × ℕ × ℕ :=
  missSwap12 s (missSwap23 s (missSwap12 s (socSortOf s)))

def listOf (t : ℕ × ℕ × ℕ) : List ℕ := [t.1, t.2.1, t.2.2]

def tripleGet (t : ℕ × ℕ × ℕ) : ℕ → ℕ
  | 0 => t.1
  | 1 => t.2.1
  | _ => t.2.2

/-- The 1-based battery indices the decision loops scan, in loop order:
`batteryFillStateSort[0..numBats-1]`. -/
def scanListOf (t : ℕ × ℕ × ℕ) (n : ℕ) : List ℕ := (listOf t).take n

/-- `longestBattery`: the loop scans raw indices `0..numBats-1`,
keeping the first strict maximum of `isolationTime` over non-missing
entries (0 when none qualifies). -/
def longestBatteryOf (s : MonitorState) (n : ℕ) : ℕ :=
  ((List.range n).foldl (fun (acc : ℕ × ℕ) (i : ℕ) =>
      if (s.battery (i : ℤ)).healthState ≠ missingH ∧
         acc.2 < (s.battery (i : ℤ)).isolationTime then
        (i + 1, (s.battery (i : ℤ)).isolationTime)
      else acc) ((0 : ℕ), (0 : ℕ))).1


/-! ## Monitor tick, battery-management decisions -/

/-- Preliminary decision D1: return a float-phase battery to bulk when
its SoC fell below `floatBulkSoC`.  Faithful to the source, the loop
body indexes `battery[index]` and `getBatteryChargingPhase(index)` with
the 1-based `index` taken from the sort array. -/
def floatBulkStep (cfg : ConfigGroup) (s : MonitorState) (j : ℕ) : MonitorState :=
  if (s.battery (j : ℤ)).healthState ≠ missingH ∧ s.chargingPhase (j : ℤ) = floatC ∧
     (s.battery (j : ℤ)).SoC < cfg.floatBulkSoC then
    { s with chargingPhase := Function.update s.chargingPhase (j : ℤ) bulkC }
  else s

def floatBulkCheck (cfg : ConfigGroup) (scan : List ℕ) (s : MonitorState) : MonitorState :=
  scan.foldl (floatBulkStep cfg) s

/-- Preliminary decision D2: release the charger when the charging
battery reached float or rest phase. -/
def chargerPhaseRelease (s : MonitorState) : MonitorState :=
  if 0 < s.batteryUnderCharge ∧
     (s.chargingPhase ((s.batteryUnderCharge : ℤ) - 1) = floatC ∨
      s.chargingPhase ((s.batteryUnderCharge : ℤ) - 1) = restC) then
    { s with batteryUnderCharge := 0 }
  else s

/-- Preliminary decision D3: `chargerOff` is preset `true`; the loop
clears it (and records `0x100`) at the first scanned entry whose
voltage is below `panelVoltage + 128`; afterwards
`if (chargerOff) batteryUnderCharge = 0;`.  Faithful to the source, the
loop reads `battery[index]` and `getBatteryVoltage(index)` with the
1-based `index`. -/
def nightCheck (inp : MeasureInputs) (scan : List ℕ) (s : MonitorState) : MonitorState :=
  match scan.find? (fun (j : ℕ) => decide ((s.battery (j : ℤ)).healthState ≠ missingH ∧
      inp.batteryVoltage (j : ℤ) < inp.panelVoltage + 128)) with
  | some _ => { s with decisionStatus := s.decisionStatus ||| 256, chargerOff := false }
  | none => { s with chargerOff := true, batteryUnderCharge := 0 }

/-- Preliminary decision D4: disconnect the charger when every scanned
entry is in float phase (again with the source's 1-based indexing). -/
def allFloatCheck (scan : List ℕ) (s : MonitorState) : MonitorState :=
  match scan.find? (fun (j : ℕ) => decide ((s.battery (j : ℤ)).healthState ≠ missingH ∧
      s.chargingPhase (j : ℤ) ≠ floatC)) with
  | some _ => s
  | none =>
    { s with decisionStatus := s.decisionStatus ||| 512, chargerOff := true,
             batteryUnderCharge := 0 }

/-- The `numBats == 1` branch: loads and charger go to the single
battery (`batteryFillStateSort[0]`) regardless of `chargerOff`; a weak
battery then loses the load.  The weak test reads `battery[index]` with
the 1-based `index`, as the source does. -/
def oneBatteryBranch (s : MonitorState) (t : ℕ × ℕ × ℕ) : MonitorState :=
  let index := t.1
  let s1 := { s with decisionStatus := s.decisionStatus ||| 4096,
                     batteryUnderCharge := index, batteryUnderLoad := index }
  if (s1.battery (index : ℤ)).healthState = weakH then
    { s1 with decisionStatus := s1.decisionStatus ||| 64, batteryUnderLoad := 0 }
  else s1

/-- Shared shape of the allocation scans: apply the first hit of a
`find?` to `batteryUnderCharge`, recording a decision bit. -/
def chargerSelect (s : MonitorState) (found : Option ℕ) (bit : ℕ) : MonitorState :=
  match found with
  | some j => { s with batteryUnderCharge := j, decisionStatus := s.decisionStatus ||| bit }
  | none => s

/-- Shared shape of the allocation scans: apply the first hit of a
`find?` to `batteryUnderLoad`, recording a decision bit. -/
def loadSelect (s : MonitorState) (found : Option ℕ) (bit : ℕ) : MonitorState :=
  match found with
  | some j => { s with batteryUnderLoad := j, decisionStatus := s.decisionStatus ||| bit }
  | none => s

/-- Charger rules C1 and C2: deallocate when the lowest battery is not
normal; allocate the lowest unconditionally when it is critical. -/
def chargerRule12 (s : MonitorState) (lowest : ℕ) : MonitorState :=
  let s1 := if (s.battery ((lowest : ℤ) - 1)).fillState ≠ normalF then
      { s with batteryUnderCharge := 0 }
    else s
  if (s1.battery ((lowest : ℤ) - 1)).fillState = criticalF then
    { s1 with batteryUnderCharge := lowest, decisionStatus := s1.decisionStatus ||| 8 }
  else s1

/-- Charger rule C3: scan from the lowest SoC upward for a weak
battery. -/
def chargerRule3 (s : MonitorState) (revScan : List ℕ) : MonitorState :=
  chargerSelect s (revScan.find? (fun (j : ℕ) =>
    decide ((s.battery ((j : ℤ) - 1)).healthState = weakH))) 4

/-- Charger rule C4: if unallocated and isolatable, the lowest battery
not in float/rest and not the preserved longest-isolated one. -/
def chargerRule4 (cfg : ConfigGroup) (s : MonitorState) (longest : ℕ)
    (isolatable : Bool) (revScan : List ℕ) : MonitorState :=
  if s.batteryUnderCharge = 0 ∧ isolatable then
    chargerSelect s (revScan.find? (fun (j : ℕ) =>
      decide (s.chargingPhase ((j : ℤ) - 1) ≠ floatC ∧
        s.chargingPhase ((j : ℤ) - 1) ≠ restC ∧
        ¬(j = longest ∧ cfg.monitorStrategy &&& PRESERVE_ISOLATION ≠ 0)))) 1
  else s

/-- Charger rule C5: if still unallocated, drop the isolation
constraint. -/
def chargerRule5 (s : MonitorState) (revScan : List ℕ) : MonitorState :=
  if s.batteryUnderCharge = 0 then
    chargerSelect s (revScan.find? (fun (j : ℕ) =>
      decide (s.chargingPhase ((j : ℤ) - 1) ≠ floatC ∧
        s.chargingPhase ((j : ℤ) - 1) ≠ restC))) 2
  else s

/-- Charger rule C6: if the charging battery is normal, move to a
battery more than `SoC_HYSTERESIS = 5*256` lower. -/
def chargerRule6 (s : MonitorState) (revScan : List ℕ) : MonitorState :=
  if s.batteryUnderCharge ≠ 0 ∧
     (s.battery ((s.batteryUnderCharge : ℤ) - 1)).fillState = normalF then
    chargerSelect s (revScan.find? (fun (j : ℕ) =>
      decide (s.chargingPhase ((j : ℤ) - 1) ≠ floatC ∧
        s.chargingPhase ((j : ℤ) - 1) ≠ restC ∧
        (s.battery ((j : ℤ) - 1)).SoC + 5 * 256 <
          (s.battery ((s.batteryUnderCharge : ℤ) - 1)).SoC))) 3
  else s

/-- Charger allocation C1–C6 of the multi-battery branch, only when the
charger is not off.  `revScan` is the scan order
`batteryFillStateSort[numBats-1], ..., [0]` (ascending SoC). -/
def chargerAllocate (cfg : ConfigGroup) (s : MonitorState) (lowest longest : ℕ)
    (isolatable : Bool) (revScan : List ℕ) : MonitorState :=
  if s.chargerOff then s
  else chargerRule6
    (chargerRule5
      (chargerRule4 cfg (chargerRule3 (chargerRule12 s lowest) revScan)
        longest isolatable revScan) revScan) revScan

/-- Load rules L1–L3: deallocate when load and charger coincide under
SEPARATE_LOAD, when the loaded battery is weak, and when it is not
normal. -/
def loadRule123 (cfg : ConfigGroup) (s : MonitorState) : MonitorState :=
  let s1 := if s.batteryUnderLoad = s.batteryUnderCharge ∧
               cfg.monitorStrategy &&& SEPARATE_LOAD ≠ 0 then
      { s with batteryUnderLoad := 0 }
    else s
  let s2 := if s1.batteryUnderLoad ≠ 0 ∧
               (s1.battery ((s1.batteryUnderLoad : ℤ) - 1)).healthState = weakH then
      { s1 with batteryUnderLoad := 0 }
    else s1
  if s2.batteryUnderLoad ≠ 0 ∧
     (s2.battery ((s2.batteryUnderLoad : ℤ) - 1)).fillState ≠ normalF then
    { s2 with batteryUnderLoad := 0 }
  else s2

/-- Load rule L4: if unallocated and isolatable, the highest not-weak
battery avoiding the preserved longest-isolated one and the charging
one under SEPARATE_LOAD. -/
def loadRule4 (cfg : ConfigGroup) (s : MonitorState) (longest : ℕ)
    (isolatable : Bool) (scan : List ℕ) : MonitorState :=
  if s.batteryUnderLoad = 0 ∧ isolatable then
    loadSelect s (scan.find? (fun (j : ℕ) =>
      decide (¬(s.battery ((j : ℤ) - 1)).healthState = weakH ∧
        ¬(j = longest ∧ cfg.monitorStrategy &&& PRESERVE_ISOLATION ≠ 0) ∧
        ¬(j = s.batteryUnderCharge ∧ cfg.monitorStrategy &&& SEPARATE_LOAD ≠ 0)))) 16
  else s

/-- Load rule L5: drop the isolation constraint. -/
def loadRule5 (cfg : ConfigGroup) (s : MonitorState) (scan : List ℕ) : MonitorState :=
  if s.batteryUnderLoad = 0 then
    loadSelect s (scan.find? (fun (j : ℕ) =>
      decide (¬(s.battery ((j : ℤ) - 1)).healthState = weakH ∧
        ¬(j = s.batteryUnderCharge ∧ cfg.monitorStrategy &&& SEPARATE_LOAD ≠ 0)))) 32
  else s

/-- Load rule L6: require only not-weak. -/
def loadRule6 (s : MonitorState) (scan : List ℕ) : MonitorState :=
  if s.batteryUnderLoad = 0 then
    loadSelect s (scan.find? (fun (j : ℕ) =>
      decide (¬(s.battery ((j : ℤ) - 1)).healthState = weakH))) 64
  else s

/-- Load rule L7: if the loaded battery is not normal, look again for a
not-weak, not-charging battery more than `5*256` below the *charging*
battery's SoC.  The comparison reads `battery[batteryUnderCharge-1]`
without a `batteryUnderCharge ≠ 0` guard — the cell at index `-1` when
no charger is assigned — exactly as the source does. -/
def loadRule7 (cfg : ConfigGroup) (s : MonitorState) (scan : List ℕ) : MonitorState :=
  if s.batteryUnderLoad ≠ 0 ∧
     (s.battery ((s.batteryUnderLoad : ℤ) - 1)).fillState ≠ normalF then
    loadSelect s (scan.find? (fun (j : ℕ) =>
      decide (¬(s.battery ((j : ℤ) - 1)).healthState = weakH ∧
        ¬(j = s.batteryUnderCharge ∧ cfg.monitorStrategy &&& SEPARATE_LOAD ≠ 0) ∧
        (s.battery ((j : ℤ) - 1)).SoC + 5 * 256 <
          (s.battery ((s.batteryUnderCharge : ℤ) - 1)).SoC))) 48
  else s

/-- Load rule L8: a still-critical loaded battery collapses onto the
(not weak) charging battery. -/
def loadRule8 (s : MonitorState) : MonitorState :=
  if s.batteryUnderCharge ≠ 0 ∧ s.batteryUnderLoad ≠ 0 ∧
     (s.battery ((s.batteryUnderCharge : ℤ) - 1)).healthState ≠ weakH ∧
     (s.battery ((s.batteryUnderLoad : ℤ) - 1)).fillState = criticalF then
    { s with batteryUnderLoad := s.batteryUnderCharge,
             decisionStatus := s.decisionStatus ||| 128 }
  else s

/-- Load allocation L1–L8 of the multi-battery branch.  `scan` is the
scan order `batteryFillStateSort[0], ..., [numBats-1]` (descending
SoC). -/
def loadAllocate (cfg : ConfigGroup) (s : MonitorState) (longest : ℕ)
    (isolatable : Bool) (scan : List ℕ) : MonitorState :=
  loadRule8
    (loadRule7 cfg
      (loadRule6
        (loadRule5 cfg
          (loadRule4 cfg (loadRule123 cfg s) longest isolatable scan) scan) scan) scan)

/-- The premise of the night rule D3 for one scanned entry `j` of state
`sX`: the record the loop reads at `battery[j]` is missing, or the
voltage read at index `j` is at least `panelVoltage + 128` (so the
entry does not keep the charger on). -/
def nightSafeAt (inp : MeasureInputs) (sX : MonitorState) (j : ℕ) : Prop :=
  (sX.battery (j : ℤ)).healthState = missingH ∨
    inp.panelVoltage + 128 ≤ inp.batteryVoltage (j : ℤ)

/-- The battery records the preliminary decisions read: the state after
the missing pre-pass and the per-battery update. -/
def prelimBatteries (cfg : ConfigGroup) (inp : MeasureInputs) (s0 : MonitorState) :
    MonitorState :=
  updateBatteries cfg inp (removeMissing cfg s0)

/-- The night-rule premise for entry `j` of a monitor tick started from
`s0`. -/
def nightSafe (cfg : ConfigGroup) (inp : MeasureInputs) (s0 : MonitorState) (j : ℕ) : Prop :=
  nightSafeAt inp (prelimBatteries cfg inp s0) j

/-- `numBats` as the decision section computes it: counted after the
missing pre-pass. -/
def decideNumBats (cfg : ConfigGroup) (s0 : MonitorState) : ℕ :=
  numBatsOf (removeMissing cfg s0)

/-- The sorted ranking (`batteryFillStateSort`) of the decision
section. -/
def decideSort (cfg : ConfigGroup) (inp : MeasureInputs) (s0 : MonitorState) :
    ℕ × ℕ × ℕ :=
  fillStateSortOf (prelimBatteries cfg inp s0)

/-- The scan order `batteryFillStateSort[0..numBats-1]` used by the
decision loops. -/
def decideScan (cfg : ConfigGroup) (inp : MeasureInputs) (s0 : MonitorState) : List ℕ :=
  scanListOf (decideSort cfg inp s0) (decideNumBats cfg s0)

/-- The pre-pass, ranking and preliminary decisions D1–D4 of one
monitor tick (everything up to the one-battery/multi-battery branch):
`decisionStatus` is reset, D1 drops float-phase batteries back to bulk,
D2 releases a float/rest charger, D3 is the night rule, D4 the
all-float rule. -/
def monitorPrelim (cfg : ConfigGroup) (inp : MeasureInputs) (s0 : MonitorState) :
    MonitorState :=
  allFloatCheck (decideScan cfg inp s0)
    (nightCheck inp (decideScan cfg inp s0)
      (chargerPhaseRelease
        (floatBulkCheck cfg (decideScan cfg inp s0)
          { prelimBatteries cfg inp s0 with decisionStatus := 0 })))

/-- The complete decision section of one monitor tick: pre-pass,
ranking, preliminary decisions, then the one-battery or multi-battery
branch. -/
def monitorDecide (cfg : ConfigGroup) (inp : MeasureInputs) (s0 : MonitorState) :
    MonitorState :=
  if decideNumBats cfg s0 = 1 then
    oneBatteryBranch (monitorPrelim cfg inp s0) (decideSort cfg inp s0)
  else if 1 < decideNumBats cfg s0 then
    loadAllocate cfg
      (chargerAllocate cfg
        { monitorPrelim cfg inp s0 with
          decisionStatus := (monitorPrelim cfg inp s0).decisionStatus ||| 8192 }
        (tripleGet (decideSort cfg inp s0) (decideNumBats cfg s0 - 1))
        (longestBatteryOf (prelimBatteries cfg inp s0) (decideNumBats cfg s0))
        (decide (2 < decideNumBats cfg s0))
        (decideScan cfg inp s0).reverse)
      (longestBatteryOf (prelimBatteries cfg inp s0) (decideNumBats cfg s0))
      (decide (2 < decideNumBats cfg s0))
      (decideScan cfg inp s0)
  else monitorPrelim cfg inp s0

/-! ## Monitor tick, operational-state post-pass and idle SoC reset -/

/-- Post-pass O1–O3 for one battery: reset `opState` to isolated, apply
load then charge (charging written last), the over-4-hour OCV refresh,
and the isolation-timer restart to the low sentinel 10. -/
def opassStep (cfg : ConfigGroup) (inp : MeasureInputs) (s : MonitorState)
    (i : ℕ) : MonitorState :=
  let lastOpState := (s.battery (i : ℤ)).opState
  if (s.battery (i : ℤ)).healthState ≠ missingH then
    let b1 := { s.battery (i : ℤ) with opState := isolatedO }
    let b2 := if 0 < s.batteryUnderLoad ∧ s.batteryUnderLoad = i + 1 then
        { b1 with opState := loadedO }
      else b1
    let b3 := if 0 < s.batteryUnderCharge ∧ i = s.batteryUnderCharge - 1 then
        { b2 with opState := chargingO }
      else b2
    let s1 := { s with battery := Function.update s.battery (i : ℤ) b3 }
    let s2 := if lastOpState = isolatedO ∧ b3.opState ≠ isolatedO ∧
                 4 * 3600 * 1024 / cfg.monitorDelay < b3.isolationTime then
        let s1a := setBatterySoC cfg s1 (i : ℤ)
          (computeSoC (u32 (inp.batteryVoltage (i : ℤ))) (u32 inp.temperature)
            (cfg.batteryType (i : ℤ)))
        let b4 := { s1a.battery (i : ℤ) with isolationTime := 0 }
        { s1a with battery := Function.update s1a.battery (i : ℤ) b4 }
      else s1
    if b3.opState ≠ isolatedO ∨ s.batteryUnderLoad = s.batteryUnderCharge then
      let b5 := { s2.battery (i : ℤ) with isolationTime := 10 }
      { s2 with battery := Function.update s2.battery (i : ℤ) b5 }
    else s2
  else s

def opass (cfg : ConfigGroup) (inp : MeasureInputs) (s : MonitorState) : MonitorState :=
  (List.range NUM_BATS).foldl (opassStep cfg inp) s

/-- Idle SoC reset for one battery: steady-current counting with the
one-hour OCV refresh, then the isolation-time increment with the
eight-hour OCV refresh. -/
def idleResetStep (cfg : ConfigGroup) (inp : MeasureInputs) (s : MonitorState)
    (i : ℕ) : MonitorState :=
  let monitorHour := 3600 * 1000 / cfg.monitorDelay
  if (s.battery (i : ℤ)).healthState ≠ missingH then
    let b := s.battery (i : ℤ)
    let b1 := if |inp.batteryCurrent (i : ℤ)| < 30 then
        { b with currentSteady := b.currentSteady + 1 }
      else { b with currentSteady := 0 }
    let s1 := { s with battery := Function.update s.battery (i : ℤ) b1 }
    let s2 := if monitorHour < b1.currentSteady then
        let s1a := setBatterySoC cfg s1 (i : ℤ)
          (computeSoC (u32 (inp.batteryVoltage (i : ℤ))) (u32 inp.temperature)
            (cfg.batteryType (i : ℤ)))
        let b2 := { s1a.battery (i : ℤ) with currentSteady := 0 }
        { s1a with battery := Function.update s1a.battery (i : ℤ) b2 }
      else s1
    let biso := s2.battery (i : ℤ)
    let b3 := { biso with isolationTime := biso.isolationTime + 1 }
    let s3 := { s2 with battery := Function.update s2.battery (i : ℤ) b3 }
    if 8 * monitorHour < (s3.battery (i : ℤ)).isolationTime then
      let s3a := setBatterySoC cfg s3 (i : ℤ)
        (computeSoC (u32 (inp.batteryVoltage (i : ℤ))) (u32 inp.temperature)
          (cfg.batteryType (i : ℤ)))
      let b4 := { s3a.battery (i : ℤ) with isolationTime := 0 }
      { s3a with battery := Function.update s3a.battery (i : ℤ) b4 }
    else s3
  else s

def idleReset (cfg : ConfigGroup) (inp : MeasureInputs) (s : MonitorState) : MonitorState :=
  (List.range NUM_BATS).foldl (idleResetStep cfg inp) s

/-- One complete (non-calibrating) monitor tick: record/report emits no
state change, so the tick is the decision section, the operational-state
post-pass, and the idle SoC reset.  The auto-track switch settings only
drive collaborators. -/
def monitorTick (cfg : ConfigGroup) (inp : MeasureInputs) (s : MonitorState) :
    MonitorState :=
  idleReset cfg inp (opass cfg inp (monitorDecide cfg inp s))

/-! ## Calibration (monitor source, `if (calibrate)` block) -/

/-- Readings delivered to the calibration sequence: the indicator bits
and interface currents observed during each test configuration, and the
battery voltages/temperature used for the final OCV re-seed. -/
structure CalibrationInputs where
  indicators : ℕ → ℕ
  current : ℕ → ℕ → ℤ
  batteryVoltage : ℤ → ℤ
  temperature : ℤ

/-- Missing-battery detection after one test configuration: indicator
bit `2i+1` clear marks battery `i` missing and zeroes its SoC. -/
def calibMissingStep (cfg : ConfigGroup) (ind : ℕ) (s : MonitorState) (i : ℕ) :
    MonitorState :=
  if ind >>> (2 * i) &&& 2 = 0 then
    let bm := { s.battery (i : ℤ) with healthState := missingH }
    let s1 := { s with battery := Function.update s.battery (i : ℤ) bm }
    setBatterySoC cfg s1 (i : ℤ) 0
  else s

/-- One calibration test configuration: switch settings and the settle
delay drive collaborators only; the state effect is the missing check
(the recorded currents are read from `CalibrationInputs`). -/
def calibTestStep (cfg : ConfigGroup) (cin : CalibrationInputs) (s : MonitorState)
    (test : ℕ) : MonitorState :=
  (List.range NUM_BATS).foldl (calibMissingStep cfg (cin.indicators test)) s

def calibTests (cfg : ConfigGroup) (cin : CalibrationInputs) (s : MonitorState) :
    MonitorState :=
  (List.range NUM_TESTS).foldl (calibTestStep cfg cin) s

/-- Offset estimation for one interface: minimum over tests of the
currents above `CALIBRATION_THRESHOLD = -50`, starting from
`OFFSET_START_VALUE = 100`; an unchanged start value means no valid
sample and yields offset 0. -/
def calibOffset (cin : CalibrationInputs) (i : ℕ) : ℤ :=
  let m := (List.range NUM_TESTS).foldl (fun (acc : ℤ) (test : ℕ) =>
      if -50 < cin.current test i ∧ cin.current test i < acc then cin.current test i
      else acc) 100
  if m = 100 then 0 else m

/-- End of calibration for one battery: re-seed SoC from OCV, zero the
counters, isolate. -/
def calibEndStep (cfg : ConfigGroup) (cin : CalibrationInputs) (s : MonitorState)
    (i : ℕ) : MonitorState :=
  if (s.battery (i : ℤ)).healthState ≠ missingH then
    let s1 := setBatterySoC cfg s (i : ℤ)
      (computeSoC (u32 (cin.batteryVoltage (i : ℤ))) (u32 cin.temperature)
        (cfg.batteryType (i : ℤ)))
    let b0 := s1.battery (i : ℤ)
    let b1 := { b0 with currentSteady := 0, isolationTime := 0, opState := isolatedO }
    { s1 with battery := Function.update s1.battery (i : ℤ) b1 }
  else s

def calibEndLoop (cfg : ConfigGroup) (cin : CalibrationInputs) (s : MonitorState) :
    MonitorState :=
  (List.range NUM_BATS).foldl (calibEndStep cfg cin) s

/-- The complete calibration sequence: the `NUM_TESTS` test
configurations with missing detection, the offset estimation, the
per-battery re-seed/reset loop, and the clearing of both allocations. -/
def calibrationRun (cfg : ConfigGroup) (cin : CalibrationInputs) (s : MonitorState) :
    MonitorState :=
  let s1 := calibTests cfg cin s
  let s2 := { s1 with currentOffsets := fun i => calibOffset cin i }
  let s3 := calibEndLoop cfg cin s2
  { s3 with batteryUnderLoad := 0, batteryUnderCharge := 0 }

/-! ## Concrete fixtures for counterexamples and witnesses -/

/-- A quiescent battery record. -/
def batDefault : batteryStates :=
  { charge := 0, SoC := 0, fillState := normalF, opState := isolatedO,
    healthState := goodH, currentSteady := 0, isolationTime := 0 }

/-- A missing battery record. -/
def batMissing : batteryStates := { batDefault with healthState := missingH }

/-- Configuration under which every battery ends up `normalF` and none
weak: all thresholds zero, both strategies enabled. -/
def cfgAllNormal : ConfigGroup :=
  { lowVoltage := 0, criticalVoltage := 0, lowSoC := 0, criticalSoC := 0,
    floatBulkSoC := 0, weakVoltage := 0, monitorStrategy := 3,
    batteryCapacity := fun _ => 100, batteryType := fun _ => wetT,
    monitorDelay := 1000 }

/-- Single-battery night fixture: battery 0 present with 50 % charge,
batteries 1 and 2 missing, all charging phases bulk. -/
def sOneBat : MonitorState :=
  { battery := fun i => if i = 0 then { batDefault with charge := 7200000 } else batMissing,
    chargingPhase := fun _ => bulkC,
    currentOffsets := fun _ => 0,
    batteryUnderCharge := 0, batteryUnderLoad := 0,
    chargerOff := false, decisionStatus := 0 }

/-- Night readings: panel far below every battery voltage. -/
def inpNight : MeasureInputs :=
  { accumulatedCharge := fun _ => 0, batteryVoltage := fun _ => 3000,
    batteryCurrent := fun _ => 0, panelVoltage := 1000, temperature := 12518 }


/-- Thresholds with `criticalVoltage < lowVoltage` (the intended
ordering: critical is the graver state) and a battery measured below the
critical voltage. -/
def cfgThresholds : ConfigGroup :=
  { lowVoltage := 2944, criticalVoltage := 2816, lowSoC := 2560, criticalSoC := 1280,
    floatBulkSoC := 24320, weakVoltage := 1500, monitorStrategy := 3,
    batteryCapacity := fun _ => 100, batteryType := fun _ => wetT,
    monitorDelay := 1000 }

/-- Three healthy batteries at 50 % charge, all in bulk phase. -/
def sHalf : MonitorState :=
  { battery := fun _ => { batDefault with charge := 46080000 },
    chargingPhase := fun _ => bulkC,
    currentOffsets := fun _ => 0,
    batteryUnderCharge := 0, batteryUnderLoad := 0,
    chargerOff := false, decisionStatus := 0 }

/-- Readings with every battery terminal at 2000 (Q8), i.e. below the
critical voltage threshold of `cfgThresholds`. -/
def inpLowVolt : MeasureInputs :=
  { accumulatedCharge := fun _ => 0, batteryVoltage := fun _ => 2000,
    batteryCurrent := fun _ => 0, panelVoltage := 4000, temperature := 12518 }

/-- Readings whose battery voltage 100 is below the `weakVoltage`
threshold of `cfgThresholds`. -/
def inpWeakVolt : MeasureInputs :=
  { accumulatedCharge := fun _ => 0, batteryVoltage := fun _ => 100,
    batteryCurrent := fun _ => 0, panelVoltage := 4000, temperature := 12518 }

/-- The spec's per-battery bounds: `0 ≤ SoC ≤ 25600` and
`0 ≤ charge ≤ capacity × 3600 × 256`. -/
def inBounds (cfg : ConfigGroup) (i : ℤ) (b : batteryStates) : Prop :=
  0 ≤ b.SoC ∧ b.SoC ≤ 25600 ∧ 0 ≤ b.charge ∧
    b.charge ≤ cfg.batteryCapacity i * 3600 * 256

/-- Calibration readings with every battery indicator showing present
(bits 1, 3, 5 of 42 = 0b101010), quiescent currents, healthy voltages. -/
def cinPresent : CalibrationInputs :=
  { indicators := fun _ => 42, current := fun _ _ => 0,
    batteryVoltage := fun _ => 3000, temperature := 12518 }

/-- `t` is one of the six permutations of `(1,2,3)`. -/
def isPerm123 (t : ℕ × ℕ × ℕ) : Prop :=
  t = (1, 2, 3) ∨ t = (1, 3, 2) ∨ t = (2, 1, 3) ∨ t = (2, 3, 1) ∨
    t = (3, 1, 2) ∨ t = (3, 2, 1)

/-- Night readings with three healthy batteries: every battery terminal
(and the adjacent cell the off-by-one read touches) at 3300, panel at
3000 — every battery is at least 0.5 V (128 in Q8) above the panel. -/
def inpNightAll : MeasureInputs :=
  { accumulatedCharge := fun _ => 0, batteryVoltage := fun _ => 3300,
    batteryCurrent := fun _ => 0, panelVoltage := 3000, temperature := 12518 }

/-- Configuration under which every battery ends the update in `lowF`
(lowVoltage above all terminal voltages), nobody weak, both strategies
set. -/
def cfgAllLow : ConfigGroup :=
  { lowVoltage := 10000, criticalVoltage := 0, lowSoC := 0, criticalSoC := 0,
    floatBulkSoC := 0, weakVoltage := 0, monitorStrategy := 3,
    batteryCapacity := fun _ => 100, batteryType := fun _ => wetT,
    monitorDelay := 1000 }

/-- Three healthy batteries (SoC 2000/1500/1000 after the update,
battery 0 longest isolated) — the parameter `g` is the SoC stored in
the out-of-range cell at index `-1`, the cell that rule L7's
`battery[batteryUnderCharge-1]` reads when `batteryUnderCharge == 0`;
the real slots 0..2 do not depend on `g`. -/
def sGhost (g : ℤ) : MonitorState :=
  { battery := fun i =>
      if i = -1 then { batDefault with SoC := g }
      else if i = 0 then { batDefault with charge := 7200000, isolationTime := 100 }
      else if i = 1 then { batDefault with charge := 5400000 }
      else { batDefault with charge := 3600000 },
    chargingPhase := fun _ => floatC,
    currentOffsets := fun _ => 0,
    batteryUnderCharge := 0, batteryUnderLoad := 0,
    chargerOff := false, decisionStatus := 0 }

/-- Daytime readings: battery terminals 3000, panel 5000. -/
def inpDay : MeasureInputs :=
  { accumulatedCharge := fun _ => 0, batteryVoltage := fun _ => 3000,
    batteryCurrent := fun _ => 0, panelVoltage := 5000, temperature := 12518 }

/-- Thresholds with `criticalVoltage` above the terminal voltages and
`lowVoltage` at zero, driving every battery to `criticalF`; both
strategies off. -/
def cfgCrit : ConfigGroup :=
  { lowVoltage := 0, criticalVoltage := 10000, lowSoC := 0, criticalSoC := 0,
    floatBulkSoC := 0, weakVoltage := 0, monitorStrategy := 0,
    batteryCapacity := fun _ => 100, batteryType := fun _ => wetT,
    monitorDelay := 1000 }

/-- A 1-based allocation value `v` is sound with respect to the battery
array `B`: unallocated, out of the 1..3 range (a stale value the tick
never dereferences for the conclusion), or pointing at a non-missing
battery. -/
def okIdx (B : ℤ → batteryStates) (v : ℕ) : Prop :=
  v = 0 ∨ 3 < v ∨ (B ((v : ℤ) - 1)).healthState ≠ missingH

/-- The missing flag the second bubble sort tests for a 1-based entry
`x`. -/
def missFlag (s : MonitorState) (x : ℕ) : Bool :=
  decide ((s.battery ((x : ℤ) - 1)).healthState = missingH)

/-- The second bubble sort abstracted over its per-entry flag. -/
def mswap12 (m : ℕ → Bool) (t : ℕ × ℕ × ℕ) : ℕ × ℕ × ℕ :=
  if m t.1 then (t.2.1, t.1, t.2.2) else t

def mswap23 (m : ℕ → Bool) (t : ℕ × ℕ × ℕ) : ℕ × ℕ × ℕ :=
  if m t.2.1 then (t.1, t.2.2, t.2.1) else t

def msort (m : ℕ → Bool) (t : ℕ × ℕ × ℕ) : ℕ × ℕ × ℕ :=
  mswap12 m (mswap23 m (mswap12 m t))

/-- The number of entries of `{1,2,3}` whose flag is clear. -/
def nOf (m : ℕ → Bool) : ℕ :=
  (if m 1 then 0 else 1) + (if m 2 then 0 else 1) + (if m 3 then 0 else 1)

/-- A 1-based allocation value is good for state `s`: unallocated, or in
the 1..3 range and pointing at a non-missing battery record. -/
def goodIdx (s : MonitorState) (v : ℕ) : Prop :=
  v = 0 ∨ (v ≤ 3 ∧ (s.battery ((v : ℤ) - 1)).healthState ≠ missingH)

/-! ## Helper lemmas for computeSoC -/

theorem vFactorOf_le (temperature : ℕ) : vFactorOf temperature ≤ 65536 := by
  unfold vFactorOf
  exact Nat.sub_le _ _

theorem shiftPart_le (temperature : ℕ) :
    (42 * tDiffOf temperature * tDiffOf temperature) % 2 ^ 32 / 2 ^ 20 ≤ 4095 := by
  have h1 : (42 * tDiffOf temperature * tDiffOf temperature) % 2 ^ 32 ≤ 2 ^ 32 - 1 :=
    Nat.le_pred_of_lt (Nat.mod_lt _ (by norm_num))
  calc (42 * tDiffOf temperature * tDiffOf temperature) % 2 ^ 32 / 2 ^ 20
      ≤ (2 ^ 32 - 1) / 2 ^ 20 := Nat.div_le_div_right h1
    _ = 4095 := by norm_num

theorem le_vFactorOf (temperature : ℕ) : 61441 ≤ vFactorOf temperature := by
  have h := shiftPart_le temperature
  unfold vFactorOf
  omega

theorem socRaw_mono (type : battery_Type) {a b : ℤ} (h : a ≤ b) :
    socRaw type a ≤ socRaw type b := by
  unfold socRaw
  by_cases hg : type = gelT ∨ type = agmT
  · simp only [hg, true_and]
    split_ifs <;> linarith
  · simp only [hg, false_and, if_false]
    linarith

theorem clampSoC_mono {a b : ℤ} (h : a ≤ b) : clampSoC a ≤ clampSoC b := by
  unfold clampSoC
  split_ifs <;> omega

theorem ocvOf_eq_of_lt {voltage : ℕ} (temperature : ℕ) (h : voltage < 65536) :
    ocvOf voltage temperature = voltage * 65536 / vFactorOf temperature := by
  unfold ocvOf
  have h1 : voltage % 2 ^ 32 = voltage := Nat.mod_eq_of_lt (by omega)
  have h2 : voltage * 65536 < 2 ^ 32 := by
    calc voltage * 65536 ≤ 65535 * 65536 := Nat.mul_le_mul_right _ (by omega)
      _ < 2 ^ 32 := by norm_num
  rw [h1, Nat.mod_eq_of_lt h2]

/-! ## Claim C10 -/

/-- C10: for every `uint32` temperature (independently of voltage and
battery type) the divisor `vFactor` computed inside `computeSoC` lies in
`[61441, 65536]`; in particular it is nonzero, so the division producing
`ocv` never divides by zero and `computeSoC` is total on its whole input
domain. -/
theorem C10_vFactor_bounds (temperature : ℕ) :
    61441 ≤ vFactorOf temperature ∧ vFactorOf temperature ≤ 65536 ∧
      vFactorOf temperature ≠ 0 := by
  refine ⟨le_vFactorOf temperature, vFactorOf_le temperature, ?_⟩
  have h := le_vFactorOf temperature
  omega

/-! ## Claim C9 -/

/-- C9 (amended): for every fixed battery type and fixed temperature,
`computeSoC` is monotone non-decreasing in voltage as long as the larger
voltage stays below 65536 — beyond that the `uint32_t` product
`voltage*65536` wraps around and monotonicity is lost. -/
theorem C9_computeSoC_mono (v1 v2 temperature : ℕ) (type : battery_Type)
    (h : v1 ≤ v2) (h2 : v2 < 65536) :
    computeSoC v1 temperature type ≤ computeSoC v2 temperature type := by
  unfold computeSoC
  apply clampSoC_mono
  apply Int.ediv_le_ediv (by norm_num)
  apply socRaw_mono
  have hocv : ocvOf v1 temperature ≤ ocvOf v2 temperature := by
    rw [ocvOf_eq_of_lt temperature (lt_of_le_of_lt h h2), ocvOf_eq_of_lt temperature h2]
    exact Nat.div_le_div_right (Nat.mul_le_mul_right _ h)
  exact_mod_cast hocv

set_option maxRecDepth 10000 in
/-- C9 counterexample: at voltages 65535 and 65536 (equal temperature
12518, wet type) the `uint32_t` product wraps and the SoC drops from the
saturated 25600 to 0, so `computeSoC` is not monotone over all `uint32`
voltages as the claim states. -/
theorem C9_counterexample :
    65535 ≤ 65536 ∧ computeSoC 65536 12518 wetT < computeSoC 65535 12518 wetT := by
  constructor
  · decide
  · decide

/-- C9 witness: the monotonicity theorem applied at voltages 100 ≤ 200. -/
theorem C9_witness :
    (100 ≤ 200 ∧ 200 < 65536) ∧
      computeSoC 100 12518 wetT ≤ computeSoC 200 12518 wetT :=
  ⟨⟨by decide, by decide⟩, C9_computeSoC_mono 100 200 12518 wetT (by decide) (by decide)⟩

/-! ## Claim C2 -/

set_option maxRecDepth 100000 in
/-- C2: a battery measured below the critical voltage threshold (2000 <
criticalVoltage = 2816 < lowVoltage = 2944, SoC 50 %) ends the per-tick
fill-state recomputation as `lowF`, not `criticalF`: the source tests
the low thresholds first and reaches the critical test only in the
`else` branch, so with the intended ordering `criticalVoltage ≤
lowVoltage` the critical state is unreachable.  The claim (and the
surrounding design: progressive load shedding, critical-first charger
allocation) requires `criticalF` here, so the code contradicts its own
documentation. -/
theorem C2_fill_order_bug :
    |inpLowVolt.batteryVoltage 0| < cfgThresholds.criticalVoltage ∧
    cfgThresholds.criticalVoltage < cfgThresholds.lowVoltage ∧
    ((updateBatteries cfgThresholds inpLowVolt sHalf).battery 0).fillState = lowF ∧
    lowF ≠ criticalF := by
  refine ⟨by decide, by decide, by decide, by decide⟩

/-! ## Helper lemmas for the tracker updates -/

theorem updateBatteryStep_other (cfg : ConfigGroup) (inp : MeasureInputs)
    (s : MonitorState) (i : ℕ) {j : ℤ} (hne : j ≠ (i : ℤ)) :
    (updateBatteryStep cfg inp s i).battery j = s.battery j := by
  unfold updateBatteryStep
  split_ifs <;> simp [Function.update_noteq hne]

theorem updateBatteries_eq (cfg : ConfigGroup) (inp : MeasureInputs) (s : MonitorState) :
    updateBatteries cfg inp s =
      updateBatteryStep cfg inp
        (updateBatteryStep cfg inp (updateBatteryStep cfg inp s 0) 1) 2 := rfl

theorem updateBatteryStep_bounds (cfg : ConfigGroup) (inp : MeasureInputs)
    (s : MonitorState) (i : ℕ)
    (hcap : 0 < cfg.batteryCapacity (i : ℤ))
    (hmi : (s.battery (i : ℤ)).healthState ≠ missingH) :
    inBounds cfg (i : ℤ) ((updateBatteryStep cfg inp s i).battery (i : ℤ)) := by
  unfold updateBatteryStep
  rw [if_pos hmi]
  simp only [Function.update_same]
  have hc36 : (0 : ℤ) < cfg.batteryCapacity (i : ℤ) * 36 := by positivity
  set b := s.battery (i : ℤ) with hb
  set charge1 := b.charge + inp.accumulatedCharge (i : ℤ) with hc1
  set chargeMax := cfg.batteryCapacity (i : ℤ) * 3600 * 256 with hcm
  set charge2 := if charge1 < 0 then 0 else charge1 with hc2
  set charge3 := if chargeMax < charge2 then chargeMax else charge2 with hc3
  have h2nn : 0 ≤ charge2 := by
    rw [hc2]; split_ifs with h <;> omega
  have h3nn : 0 ≤ charge3 := by
    rw [hc3]; split_ifs with h
    · positivity
    · exact h2nn
  have h3le : charge3 ≤ chargeMax := by
    rw [hc3]; split_ifs with h <;> omega
  have hsoc0 : 0 ≤ Int.tdiv charge3 (cfg.batteryCapacity (i : ℤ) * 36) :=
    Int.tdiv_nonneg h3nn (le_of_lt hc36)
  have hsoc1 : Int.tdiv charge3 (cfg.batteryCapacity (i : ℤ) * 36) ≤ 25600 := by
    rw [Int.tdiv_eq_ediv h3nn (le_of_lt hc36)]
    have hdiv : charge3 / (cfg.batteryCapacity (i : ℤ) * 36) ≤
        chargeMax / (cfg.batteryCapacity (i : ℤ) * 36) := Int.ediv_le_ediv hc36 h3le
    have hmax : chargeMax / (cfg.batteryCapacity (i : ℤ) * 36) = 25600 := by
      rw [hcm]
      have : cfg.batteryCapacity (i : ℤ) * 3600 * 256 =
          cfg.batteryCapacity (i : ℤ) * 36 * 25600 := by ring
      rw [this, Int.mul_ediv_cancel_left _ (ne_of_gt hc36)]
    omega
  unfold inBounds
  split_ifs <;> simp_all

theorem setBatterySoC_bounds (cfg : ConfigGroup) (s : MonitorState) (i : ℤ) (soc : ℤ)
    (hcap : 0 ≤ cfg.batteryCapacity i) (h0 : 0 ≤ soc) (h1 : soc ≤ 25600) :
    inBounds cfg i ((setBatterySoC cfg s i soc).battery i) := by
  unfold setBatterySoC inBounds
  simp only [Function.update_same]
  have hwrap : u16 soc = soc := by
    unfold u16
    omega
  have hch0 : 0 ≤ soc * cfg.batteryCapacity i * 36 := by positivity
  have hch1 : soc * cfg.batteryCapacity i * 36 ≤ cfg.batteryCapacity i * 3600 * 256 := by
    nlinarith
  split_ifs <;> simp_all

theorem resetBatterySoC_bounds (cfg : ConfigGroup) (s : MonitorState) (i : ℤ)
    (hcap : 0 ≤ cfg.batteryCapacity i) :
    inBounds cfg i ((resetBatterySoC cfg s i).battery i) := by
  unfold resetBatterySoC
  exact setBatterySoC_bounds cfg _ i 25600 hcap (by norm_num) le_rfl

theorem updateBatteryStep_soc_coupled (cfg : ConfigGroup) (inp : MeasureInputs)
    (s : MonitorState) (i : ℕ)
    (hcap : 0 < cfg.batteryCapacity (i : ℤ))
    (hmi : (s.battery (i : ℤ)).healthState ≠ missingH)
    (hweak : cfg.weakVoltage ≤ |inp.batteryVoltage (i : ℤ)|) :
    ((updateBatteryStep cfg inp s i).battery (i : ℤ)).SoC =
      ((updateBatteryStep cfg inp s i).battery (i : ℤ)).charge /
        (cfg.batteryCapacity (i : ℤ) * 36) := by
  unfold updateBatteryStep
  rw [if_pos hmi]
  simp only [Function.update_same]
  have hc36 : (0 : ℤ) < cfg.batteryCapacity (i : ℤ) * 36 := by positivity
  set b := s.battery (i : ℤ) with hb
  set charge1 := b.charge + inp.accumulatedCharge (i : ℤ) with hc1
  set chargeMax := cfg.batteryCapacity (i : ℤ) * 3600 * 256 with hcm
  set charge2 := if charge1 < 0 then 0 else charge1 with hc2
  set charge3 := if chargeMax < charge2 then chargeMax else charge2 with hc3
  have h2nn : 0 ≤ charge2 := by
    rw [hc2]; split_ifs with h <;> omega
  have h3nn : 0 ≤ charge3 := by
    rw [hc3]; split_ifs with h
    · positivity
    · exact h2nn
  have htd : Int.tdiv charge3 (cfg.batteryCapacity (i : ℤ) * 36) =
      charge3 / (cfg.batteryCapacity (i : ℤ) * 36) :=
    Int.tdiv_eq_ediv h3nn (le_of_lt hc36)
  have hnw : ¬(|inp.batteryVoltage (i : ℤ)| < cfg.weakVoltage) := not_lt.mpr hweak
  split_ifs <;> simp_all

theorem setBatterySoC_soc_coupled (cfg : ConfigGroup) (s : MonitorState) (i : ℤ) (soc : ℤ)
    (hcap : 0 < cfg.batteryCapacity i)
    (hold : (s.battery i).SoC ≤ 25600)
    (hs0 : 0 ≤ soc) (hs1 : soc ≤ 25600) :
    ((setBatterySoC cfg s i soc).battery i).SoC =
      ((setBatterySoC cfg s i soc).battery i).charge /
        (cfg.batteryCapacity i * 36) := by
  unfold setBatterySoC
  simp only [Function.update_same]
  have hwrap : u16 soc = soc := by
    unfold u16
    omega
  have hc36 : (0 : ℤ) < cfg.batteryCapacity i * 36 := by positivity
  have hcancel : soc * cfg.batteryCapacity i * 36 / (cfg.batteryCapacity i * 36) = soc := by
    rw [mul_assoc, Int.mul_ediv_cancel _ (ne_of_gt hc36)]
  rw [if_neg (by omega)]
  simp [hwrap, hcancel]

theorem updateBatteries_battery_split (cfg : ConfigGroup) (inp : MeasureInputs)
    (s : MonitorState) (i : ℕ) (hi : i < NUM_BATS) :
    ∃ s' : MonitorState,
      (updateBatteries cfg inp s).battery (i : ℤ) =
        (updateBatteryStep cfg inp s' i).battery (i : ℤ) ∧
      s'.battery (i : ℤ) = s.battery (i : ℤ) := by
  have h3 : i < 3 := hi
  interval_cases i
  · exact ⟨s, by rw [updateBatteries_eq,
      updateBatteryStep_other _ _ _ 2 (by norm_num),
      updateBatteryStep_other _ _ _ 1 (by norm_num)], rfl⟩
  · exact ⟨updateBatteryStep cfg inp s 0, by rw [updateBatteries_eq,
      updateBatteryStep_other _ _ _ 2 (by norm_num)],
      updateBatteryStep_other _ _ _ 0 (by norm_num)⟩
  · exact ⟨updateBatteryStep cfg inp (updateBatteryStep cfg inp s 0) 1,
      by rw [updateBatteries_eq],
      by rw [updateBatteryStep_other _ _ _ 1 (by norm_num),
             updateBatteryStep_other _ _ _ 0 (by norm_num)]⟩

/-! ## Claim C4 -/

/-- C4 (amended): the per-tick Coulomb integration and SoC
recomputation, `setBatterySoC` restricted to arguments in `[0, 25600]`,
and `resetBatterySoC` all leave battery `i` with `0 ≤ SoC ≤ 25600` and
`0 ≤ charge ≤ capacity×3600×256`.  (For an argument outside `[0,25600]`
`setBatterySoC` violates the bounds, because its guard clamps against
the previously stored SoC instead of the argument: a negative int16
argument wraps in the `uint16_t` field to a stored SoC above 32767 while
`charge` goes negative — see the counterexample.) -/
theorem C4_tracker_bounds (cfg : ConfigGroup) (inp : MeasureInputs) (s : MonitorState)
    (i : ℕ) (soc : ℤ) (hi : i < NUM_BATS)
    (hcap : 0 < cfg.batteryCapacity (i : ℤ))
    (hmi : (s.battery (i : ℤ)).healthState ≠ missingH)
    (hs0 : 0 ≤ soc) (hs1 : soc ≤ 25600) :
    inBounds cfg (i : ℤ) ((updateBatteries cfg inp s).battery (i : ℤ)) ∧
    inBounds cfg (i : ℤ) ((setBatterySoC cfg s (i : ℤ) soc).battery (i : ℤ)) ∧
    inBounds cfg (i : ℤ) ((resetBatterySoC cfg s (i : ℤ)).battery (i : ℤ)) := by
  refine ⟨?_, setBatterySoC_bounds cfg s _ soc (le_of_lt hcap) hs0 hs1,
    resetBatterySoC_bounds cfg s _ (le_of_lt hcap)⟩
  obtain ⟨s', heq, hsb⟩ := updateBatteries_battery_split cfg inp s i hi
  rw [heq]
  exact updateBatteryStep_bounds cfg inp s' i hcap (by rw [hsb]; exact hmi)

/-- C4 counterexample: `setBatterySoC` with the int16 argument `-1` on a
battery whose stored SoC is 0 takes the unclamped branch (the guard
tests the previously stored SoC, not the argument) and stores the
uint16-wrapped value `SoC = 65535 > 25600` together with
`charge = -1 × 100 × 36 = -3600 < 0`: the claim's "any int16 argument"
fails. -/
theorem C4_counterexample :
    ((setBatterySoC cfgThresholds sHalf 0 (-1)).battery 0).SoC = 65535 ∧
    ((setBatterySoC cfgThresholds sHalf 0 (-1)).battery 0).charge = -3600 ∧
    ¬ inBounds cfgThresholds 0 ((setBatterySoC cfgThresholds sHalf 0 (-1)).battery 0) := by
  refine ⟨by decide, by decide, ?_⟩
  unfold inBounds
  decide

/-- C4 witness: the amended bounds theorem applied to battery 0 of the
concrete fixture with `setBatterySoC` argument 12800. -/
theorem C4_witness :
    ((0 : ℕ) < NUM_BATS ∧ (0 : ℤ) < cfgThresholds.batteryCapacity 0 ∧
      (sHalf.battery 0).healthState ≠ missingH ∧
      (0 : ℤ) ≤ 12800 ∧ (12800 : ℤ) ≤ 25600) ∧
    (inBounds cfgThresholds 0 ((updateBatteries cfgThresholds inpLowVolt sHalf).battery 0) ∧
     inBounds cfgThresholds 0 ((setBatterySoC cfgThresholds sHalf 0 12800).battery 0) ∧
     inBounds cfgThresholds 0 ((resetBatterySoC cfgThresholds sHalf 0).battery 0)) :=
  ⟨⟨by decide, by decide, by decide, by decide, by decide⟩,
    C4_tracker_bounds cfgThresholds inpLowVolt sHalf 0 12800 (by decide) (by decide)
      (by decide) (by decide) (by decide)⟩

/-! ## Claim C5 -/

/-- C5 (amended): the SoC–charge coupling
`SoC = ⌊charge / (capacity×36)⌋` holds after the per-tick Coulomb
integration (provided the battery is not driven into the weak state on
that tick) and after `setBatterySoC` (provided the previously stored SoC
was within range and the argument is in its documented range
`[0, 25600]` — a negative int16 argument wraps in the `uint16_t` SoC
field to `65536 + soc` while `charge` receives the signed value, so the
coupling fails for it).  The weak-battery handling breaks the coupling
outright: it forces `SoC = 0` while leaving `charge` unchanged — see the
counterexample. -/
theorem C5_soc_charge_coupling (cfg : ConfigGroup) (inp : MeasureInputs)
    (s : MonitorState) (i : ℕ) (soc : ℤ) (hi : i < NUM_BATS)
    (hcap : 0 < cfg.batteryCapacity (i : ℤ))
    (hmi : (s.battery (i : ℤ)).healthState ≠ missingH)
    (hweak : cfg.weakVoltage ≤ |inp.batteryVoltage (i : ℤ)|)
    (hold : (s.battery (i : ℤ)).SoC ≤ 25600)
    (hs0 : 0 ≤ soc) (hs1 : soc ≤ 25600) :
    ((updateBatteries cfg inp s).battery (i : ℤ)).SoC =
      ((updateBatteries cfg inp s).battery (i : ℤ)).charge /
        (cfg.batteryCapacity (i : ℤ) * 36) ∧
    ((setBatterySoC cfg s (i : ℤ) soc).battery (i : ℤ)).SoC =
      ((setBatterySoC cfg s (i : ℤ) soc).battery (i : ℤ)).charge /
        (cfg.batteryCapacity (i : ℤ) * 36) := by
  refine ⟨?_, setBatterySoC_soc_coupled cfg s _ soc hcap hold hs0 hs1⟩
  obtain ⟨s', heq, hsb⟩ := updateBatteries_battery_split cfg inp s i hi
  rw [heq]
  exact updateBatteryStep_soc_coupled cfg inp s' i hcap (by rw [hsb]; exact hmi) hweak

set_option maxRecDepth 100000 in
/-- C5 counterexample: with battery 0 at 50 % charge and terminal
voltage 100 (below `weakVoltage`), the weak-battery handling of the
per-tick update forces `SoC = 0` while `⌊charge/(capacity×36)⌋ = 12800`,
so the claimed coupling fails after that update. -/
theorem C5_counterexample :
    ((updateBatteries cfgThresholds inpWeakVolt sHalf).battery 0).SoC = 0 ∧
    ((updateBatteries cfgThresholds inpWeakVolt sHalf).battery 0).charge /
      (cfgThresholds.batteryCapacity 0 * 36) = 12800 ∧ (0 : ℤ) ≠ 12800 := by
  refine ⟨by decide, by decide, by decide⟩

/-- C5 witness: the coupling theorem applied to battery 0 of the
concrete fixture (voltage 2000, above the weak threshold). -/
theorem C5_witness :
    ((0 : ℕ) < NUM_BATS ∧ (0 : ℤ) < cfgThresholds.batteryCapacity 0 ∧
      (sHalf.battery 0).healthState ≠ missingH ∧
      cfgThresholds.weakVoltage ≤ |inpLowVolt.batteryVoltage 0| ∧
      (sHalf.battery 0).SoC ≤ 25600 ∧
      (0 : ℤ) ≤ 12800 ∧ (12800 : ℤ) ≤ 25600) ∧
    (((updateBatteries cfgThresholds inpLowVolt sHalf).battery 0).SoC =
      ((updateBatteries cfgThresholds inpLowVolt sHalf).battery 0).charge /
        (cfgThresholds.batteryCapacity 0 * 36) ∧
     ((setBatterySoC cfgThresholds sHalf 0 12800).battery 0).SoC =
      ((setBatterySoC cfgThresholds sHalf 0 12800).battery 0).charge /
        (cfgThresholds.batteryCapacity 0 * 36)) :=
  ⟨⟨by decide, by decide, by decide, by decide, by decide, by decide, by decide⟩,
    C5_soc_charge_coupling cfgThresholds inpLowVolt sHalf 0 12800 (by decide) (by decide)
      (by decide) (by decide) (by decide) (by decide) (by decide)⟩

/-! ## Helper lemmas for the calibration end loop -/

theorem setBatterySoC_health (cfg : ConfigGroup) (s : MonitorState) (i soc : ℤ) (j : ℤ) :
    ((setBatterySoC cfg s i soc).battery j).healthState = (s.battery j).healthState := by
  unfold setBatterySoC
  by_cases hji : j = i
  · subst hji
    simp only [Function.update_same]
    split_ifs <;> rfl
  · simp [Function.update_noteq hji]

theorem calibEndStep_other (cfg : ConfigGroup) (cin : CalibrationInputs)
    (s : MonitorState) (i : ℕ) {j : ℤ} (hne : j ≠ (i : ℤ)) :
    (calibEndStep cfg cin s i).battery j = s.battery j := by
  unfold calibEndStep setBatterySoC
  split_ifs <;> simp [Function.update_noteq hne]

theorem calibEndStep_health (cfg : ConfigGroup) (cin : CalibrationInputs)
    (s : MonitorState) (i : ℕ) (j : ℤ) :
    ((calibEndStep cfg cin s i).battery j).healthState = (s.battery j).healthState := by
  by_cases hji : j = (i : ℤ)
  · subst hji
    unfold calibEndStep
    split_ifs with h
    · simp only [Function.update_same]
      exact setBatterySoC_health cfg s _ _ _
    · rfl
  · rw [calibEndStep_other cfg cin s i hji]

theorem calibEndStep_same (cfg : ConfigGroup) (cin : CalibrationInputs)
    (s : MonitorState) (i : ℕ)
    (hmi : (s.battery (i : ℤ)).healthState ≠ missingH) :
    ((calibEndStep cfg cin s i).battery (i : ℤ)).opState = isolatedO ∧
    ((calibEndStep cfg cin s i).battery (i : ℤ)).isolationTime = 0 ∧
    ((calibEndStep cfg cin s i).battery (i : ℤ)).currentSteady = 0 := by
  unfold calibEndStep
  rw [if_pos hmi]
  simp [Function.update_same]

theorem calibEndLoop_eq (cfg : ConfigGroup) (cin : CalibrationInputs) (s : MonitorState) :
    calibEndLoop cfg cin s =
      calibEndStep cfg cin (calibEndStep cfg cin (calibEndStep cfg cin s 0) 1) 2 := rfl

theorem calibEndLoop_split (cfg : ConfigGroup) (cin : CalibrationInputs)
    (s : MonitorState) (i : ℕ) (hi : i < NUM_BATS) :
    ∃ s' : MonitorState,
      (calibEndLoop cfg cin s).battery (i : ℤ) =
        (calibEndStep cfg cin s' i).battery (i : ℤ) ∧
      (s'.battery (i : ℤ)).healthState =
        ((calibEndLoop cfg cin s).battery (i : ℤ)).healthState := by
  have h3 : i < 3 := hi
  interval_cases i
  · refine ⟨s, ?_, ?_⟩
    · rw [calibEndLoop_eq, calibEndStep_other _ _ _ 2 (by norm_num),
        calibEndStep_other _ _ _ 1 (by norm_num)]
    · rw [calibEndLoop_eq, calibEndStep_other _ _ _ 2 (by norm_num),
        calibEndStep_other _ _ _ 1 (by norm_num), calibEndStep_health]
  · refine ⟨calibEndStep cfg cin s 0, ?_, ?_⟩
    · rw [calibEndLoop_eq, calibEndStep_other _ _ _ 2 (by norm_num)]
    · rw [calibEndLoop_eq, calibEndStep_other _ _ _ 2 (by norm_num)]
      exact (calibEndStep_health cfg cin _ 1 _).symm
  · refine ⟨calibEndStep cfg cin (calibEndStep cfg cin s 0) 1, ?_, ?_⟩
    · rw [calibEndLoop_eq]
    · rw [calibEndLoop_eq]
      exact (calibEndStep_health cfg cin _ 2 _).symm

/-! ## Claim C6 -/

/-- C6 (amended): every calibration run executes exactly
`NUM_TESTS = NUM_IFS + 1` switch-test configurations, which for the
reference geometry (3 batteries, 2 loads, 1 panel) is `6 + 1 = 7` — not
the 5 stated by the claim's scenario; and at its end every non-missing
battery has `opState = isolatedO`, `isolationTime = 0`,
`currentSteady = 0`, and both `batteryUnderLoad` and
`batteryUnderCharge` are cleared. -/
theorem C6_calibration (cfg : ConfigGroup) (cin : CalibrationInputs) (s : MonitorState)
    (i : ℕ) (hi : i < NUM_BATS)
    (hmi : ((calibrationRun cfg cin s).battery (i : ℤ)).healthState ≠ missingH) :
    NUM_TESTS = NUM_IFS + 1 ∧ NUM_TESTS = 7 ∧
    (calibrationRun cfg cin s).batteryUnderLoad = 0 ∧
    (calibrationRun cfg cin s).batteryUnderCharge = 0 ∧
    ((calibrationRun cfg cin s).battery (i : ℤ)).opState = isolatedO ∧
    ((calibrationRun cfg cin s).battery (i : ℤ)).isolationTime = 0 ∧
    ((calibrationRun cfg cin s).battery (i : ℤ)).currentSteady = 0 := by
  have hbat : (calibrationRun cfg cin s).battery =
      (calibEndLoop cfg cin
        { calibTests cfg cin s with currentOffsets := fun k => calibOffset cin k }).battery := rfl
  obtain ⟨s', heq, hh⟩ := calibEndLoop_split cfg cin
    { calibTests cfg cin s with currentOffsets := fun k => calibOffset cin k } i hi
  have hmi' : (s'.battery (i : ℤ)).healthState ≠ missingH := by
    rw [hh, ← hbat]
    exact hmi
  have hsame := calibEndStep_same cfg cin s' i hmi'
  refine ⟨rfl, rfl, rfl, rfl, ?_, ?_, ?_⟩
  · rw [hbat, heq]; exact hsame.1
  · rw [hbat, heq]; exact hsame.2.1
  · rw [hbat, heq]; exact hsame.2.2

/-- C6 counterexample: the number of switch-test configurations is
`NUM_IFS + 1 = 7` for the 3-battery, 2-load, 1-panel geometry, not
`4 + 1 = 5` as the claim's scenario states. -/
theorem C6_counterexample :
    NUM_TESTS = NUM_IFS + 1 ∧ NUM_TESTS = 7 ∧ ¬ NUM_TESTS = 4 + 1 := by decide

set_option maxRecDepth 400000 in
/-- C6 witness: the end-state theorem applied to battery 0 of a concrete
calibration run on healthy batteries with all indicators present. -/
theorem C6_witness :
    ((0 : ℕ) < NUM_BATS ∧
      ((calibrationRun cfgAllNormal cinPresent sHalf).battery 0).healthState ≠ missingH) ∧
    (NUM_TESTS = NUM_IFS + 1 ∧ NUM_TESTS = 7 ∧
     (calibrationRun cfgAllNormal cinPresent sHalf).batteryUnderLoad = 0 ∧
     (calibrationRun cfgAllNormal cinPresent sHalf).batteryUnderCharge = 0 ∧
     ((calibrationRun cfgAllNormal cinPresent sHalf).battery 0).opState = isolatedO ∧
     ((calibrationRun cfgAllNormal cinPresent sHalf).battery 0).isolationTime = 0 ∧
     ((calibrationRun cfgAllNormal cinPresent sHalf).battery 0).currentSteady = 0) :=
  ⟨⟨by decide, by decide⟩,
    C6_calibration cfgAllNormal cinPresent sHalf 0 (by decide) (by decide)⟩

/-! ## Helper lemmas for the ranking and the preliminary decisions -/

theorem socSwap12_perm (s : MonitorState) (t : ℕ × ℕ × ℕ) (h : isPerm123 t) :
    isPerm123 (socSwap12 s t) := by
  unfold socSwap12
  rcases h with rfl | rfl | rfl | rfl | rfl | rfl <;> split_ifs <;> simp [isPerm123]

theorem socSwap23_perm (s : MonitorState) (t : ℕ × ℕ × ℕ) (h : isPerm123 t) :
    isPerm123 (socSwap23 s t) := by
  unfold socSwap23
  rcases h with rfl | rfl | rfl | rfl | rfl | rfl <;> split_ifs <;> simp [isPerm123]

theorem missSwap12_perm (s : MonitorState) (t : ℕ × ℕ × ℕ) (h : isPerm123 t) :
    isPerm123 (missSwap12 s t) := by
  unfold missSwap12
  rcases h with rfl | rfl | rfl | rfl | rfl | rfl <;> split_ifs <;> simp [isPerm123]

theorem missSwap23_perm (s : MonitorState) (t : ℕ × ℕ × ℕ) (h : isPerm123 t) :
    isPerm123 (missSwap23 s t) := by
  unfold missSwap23
  rcases h with rfl | rfl | rfl | rfl | rfl | rfl <;> split_ifs <;> simp [isPerm123]

theorem fillStateSortOf_perm (s : MonitorState) : isPerm123 (fillStateSortOf s) := by
  unfold fillStateSortOf socSortOf
  apply missSwap12_perm
  apply missSwap23_perm
  apply missSwap12_perm
  apply socSwap12_perm
  apply socSwap23_perm
  apply socSwap12_perm
  simp [isPerm123]

theorem scan_mem_123 {t : ℕ × ℕ × ℕ} (h : isPerm123 t) {n : ℕ} {j : ℕ}
    (hj : j ∈ scanListOf t n) : j = 1 ∨ j = 2 ∨ j = 3 := by
  have hmem : j ∈ listOf t := List.take_subset n (listOf t) hj
  rcases h with rfl | rfl | rfl | rfl | rfl | rfl <;>
    simp [listOf] at hmem <;> tauto

theorem floatBulkStep_proj (cfg : ConfigGroup) (s : MonitorState) (j : ℕ) :
    (floatBulkStep cfg s j).battery = s.battery ∧
    (floatBulkStep cfg s j).batteryUnderCharge = s.batteryUnderCharge ∧
    (floatBulkStep cfg s j).batteryUnderLoad = s.batteryUnderLoad ∧
    (floatBulkStep cfg s j).chargerOff = s.chargerOff ∧
    (floatBulkStep cfg s j).decisionStatus = s.decisionStatus := by
  unfold floatBulkStep
  split_ifs <;> exact ⟨rfl, rfl, rfl, rfl, rfl⟩

theorem floatBulkCheck_proj (cfg : ConfigGroup) (scan : List ℕ) :
    ∀ s : MonitorState,
      (floatBulkCheck cfg scan s).battery = s.battery ∧
      (floatBulkCheck cfg scan s).batteryUnderCharge = s.batteryUnderCharge ∧
      (floatBulkCheck cfg scan s).batteryUnderLoad = s.batteryUnderLoad ∧
      (floatBulkCheck cfg scan s).chargerOff = s.chargerOff ∧
      (floatBulkCheck cfg scan s).decisionStatus = s.decisionStatus := by
  induction scan with
  | nil => exact fun s => ⟨rfl, rfl, rfl, rfl, rfl⟩
  | cons a l ih =>
    intro s
    have h1 := floatBulkStep_proj cfg s a
    have h2 := ih (floatBulkStep cfg s a)
    unfold floatBulkCheck at h2 ⊢
    simp only [List.foldl_cons]
    exact ⟨h2.1.trans h1.1, h2.2.1.trans h1.2.1, h2.2.2.1.trans h1.2.2.1,
      h2.2.2.2.1.trans h1.2.2.2.1, h2.2.2.2.2.trans h1.2.2.2.2⟩

theorem chargerPhaseRelease_proj (s : MonitorState) :
    (chargerPhaseRelease s).battery = s.battery ∧
    (chargerPhaseRelease s).batteryUnderLoad = s.batteryUnderLoad ∧
    (chargerPhaseRelease s).chargerOff = s.chargerOff ∧
    (chargerPhaseRelease s).decisionStatus = s.decisionStatus := by
  unfold chargerPhaseRelease
  split_ifs <;> exact ⟨rfl, rfl, rfl, rfl⟩

theorem nightCheck_none (inp : MeasureInputs) (scan : List ℕ) (s : MonitorState)
    (hfind : scan.find? (fun (j : ℕ) => decide ((s.battery (j : ℤ)).healthState ≠ missingH ∧
      inp.batteryVoltage (j : ℤ) < inp.panelVoltage + 128)) = none) :
    nightCheck inp scan s = { s with chargerOff := true, batteryUnderCharge := 0 } := by
  unfold nightCheck
  rw [hfind]

theorem allFloatCheck_after (scan : List ℕ) (s : MonitorState)
    (hoff : s.chargerOff = true) (hbuc : s.batteryUnderCharge = 0) :
    (allFloatCheck scan s).chargerOff = true ∧
    (allFloatCheck scan s).batteryUnderCharge = 0 ∧
    (allFloatCheck scan s).decisionStatus = s.decisionStatus ∨
    (allFloatCheck scan s).chargerOff = true ∧
    (allFloatCheck scan s).batteryUnderCharge = 0 ∧
    (allFloatCheck scan s).decisionStatus = s.decisionStatus ||| 512 := by
  unfold allFloatCheck
  cases (scan.find? fun (j : ℕ) => decide ((s.battery (j : ℤ)).healthState ≠ missingH ∧
      s.chargingPhase (j : ℤ) ≠ floatC)) with
  | some j => exact Or.inl ⟨hoff, hbuc, rfl⟩
  | none => exact Or.inr ⟨rfl, rfl, rfl⟩

/-! ## Claim C7 -/

theorem scanNight_none (inp : MeasureInputs) (sX sY : MonitorState)
    (hbat : sY.battery = sX.battery) (n : ℕ)
    (H1 : nightSafeAt inp sX 1) (H2 : nightSafeAt inp sX 2) (H3 : nightSafeAt inp sX 3) :
    (scanListOf (fillStateSortOf sX) n).find? (fun (j : ℕ) =>
      decide ((sY.battery (j : ℤ)).healthState ≠ missingH ∧
        inp.batteryVoltage (j : ℤ) < inp.panelVoltage + 128)) = none := by
  rw [List.find?_eq_none]
  intro x hx
  have h123 := scan_mem_123 (fillStateSortOf_perm sX) hx
  rw [hbat]
  simp only [decide_eq_true_eq, not_and, not_lt]
  unfold nightSafeAt at H1 H2 H3
  rcases h123 with rfl | rfl | rfl
  · intro ha
    rcases H1 with h | h
    · exact absurd h ha
    · exact h
  · intro ha
    rcases H2 with h | h
    · exact absurd h ha
    · exact h
  · intro ha
    rcases H3 with h | h
    · exact absurd h ha
    · exact h

theorem prelimTail_night (inp : MeasureInputs) (scan : List ℕ) (sE : MonitorState)
    (hfind : scan.find? (fun (j : ℕ) =>
      decide ((sE.battery (j : ℤ)).healthState ≠ missingH ∧
        inp.batteryVoltage (j : ℤ) < inp.panelVoltage + 128)) = none)
    (hst : sE.decisionStatus = 0) :
    (allFloatCheck scan (nightCheck inp scan sE)).chargerOff = true ∧
    (allFloatCheck scan (nightCheck inp scan sE)).batteryUnderCharge = 0 ∧
    (allFloatCheck scan (nightCheck inp scan sE)).decisionStatus &&& 256 = 0 := by
  rw [nightCheck_none inp scan sE hfind]
  rcases allFloatCheck_after scan { sE with chargerOff := true, batteryUnderCharge := 0 }
      rfl rfl with ⟨h1, h2, h3⟩ | ⟨h1, h2, h3⟩
  · refine ⟨h1, h2, ?_⟩
    rw [h3]
    simp only [hst]
    decide
  · refine ⟨h1, h2, ?_⟩
    rw [h3]
    simp only [hst]
    decide

/-- C7 (amended): on a tick on which each of the three battery records
the night rule inspects (`battery[index]` for the 1-based sort entries
1..3, i.e. including the cell one past the real array) is missing or has
voltage at least `panelVoltage + 128`, the preliminary decisions end
with `chargerOff = true` and the charger deallocated — but the emitted
`decisionStatus` does **not** include bit 0x100: the source sets 0x100
on the opposite outcome, when some battery below `panelVoltage + 128`
keeps the charger on. -/
theorem C7_night_rule (cfg : ConfigGroup) (inp : MeasureInputs) (s0 : MonitorState)
    (H1 : nightSafe cfg inp s0 1) (H2 : nightSafe cfg inp s0 2)
    (H3 : nightSafe cfg inp s0 3) :
    (monitorPrelim cfg inp s0).chargerOff = true ∧
    (monitorPrelim cfg inp s0).batteryUnderCharge = 0 ∧
    (monitorPrelim cfg inp s0).decisionStatus &&& 256 = 0 := by
  unfold nightSafe at H1 H2 H3
  unfold monitorPrelim
  have hDproj := floatBulkCheck_proj cfg (decideScan cfg inp s0)
    { prelimBatteries cfg inp s0 with decisionStatus := 0 }
  have hEproj := chargerPhaseRelease_proj
    (floatBulkCheck cfg (decideScan cfg inp s0)
      { prelimBatteries cfg inp s0 with decisionStatus := 0 })
  have hbat : (chargerPhaseRelease
      (floatBulkCheck cfg (decideScan cfg inp s0)
        { prelimBatteries cfg inp s0 with decisionStatus := 0 })).battery =
      (prelimBatteries cfg inp s0).battery := by
    rw [hEproj.1, hDproj.1]
  have hst : (chargerPhaseRelease
      (floatBulkCheck cfg (decideScan cfg inp s0)
        { prelimBatteries cfg inp s0 with decisionStatus := 0 })).decisionStatus = 0 := by
    rw [hEproj.2.2.2, hDproj.2.2.2.2]
  apply prelimTail_night
  · exact scanNight_none inp (prelimBatteries cfg inp s0) _ hbat
      (decideNumBats cfg s0) H1 H2 H3
  · exact hst

set_option maxRecDepth 200000 in
/-- C7 counterexample: in the concrete night scenario (panel 3000, every
battery and the adjacent cell at 3300, i.e. ≥ 0.5 V above the panel) the
preliminary decisions do set `chargerOff` and deallocate the charger,
but `decisionStatus &&& 0x100 = 0` — the claim's "decisionStatus
includes 0x100" is false: the source raises 0x100 only when a battery
below `panelVoltage + 128` keeps the charger on. -/
theorem C7_counterexample :
    (monitorPrelim cfgAllNormal inpNightAll sHalf).chargerOff = true ∧
    (monitorPrelim cfgAllNormal inpNightAll sHalf).batteryUnderCharge = 0 ∧
    (monitorPrelim cfgAllNormal inpNightAll sHalf).decisionStatus &&& 256 = 0 := by
  refine ⟨by decide, by decide, by decide⟩

set_option maxRecDepth 200000 in
/-- C7 witness: the amended night-rule theorem applied to the concrete
night fixture. -/
theorem C7_witness :
    (nightSafe cfgAllNormal inpNightAll sHalf 1 ∧
     nightSafe cfgAllNormal inpNightAll sHalf 2 ∧
     nightSafe cfgAllNormal inpNightAll sHalf 3) ∧
    ((monitorPrelim cfgAllNormal inpNightAll sHalf).chargerOff = true ∧
     (monitorPrelim cfgAllNormal inpNightAll sHalf).batteryUnderCharge = 0 ∧
     (monitorPrelim cfgAllNormal inpNightAll sHalf).decisionStatus &&& 256 = 0) := by
  have h1 : nightSafe cfgAllNormal inpNightAll sHalf 1 := by
    unfold nightSafe nightSafeAt
    right
    decide
  have h2 : nightSafe cfgAllNormal inpNightAll sHalf 2 := by
    unfold nightSafe nightSafeAt
    right
    decide
  have h3 : nightSafe cfgAllNormal inpNightAll sHalf 3 := by
    unfold nightSafe nightSafeAt
    right
    decide
  exact ⟨⟨h1, h2, h3⟩, C7_night_rule cfgAllNormal inpNightAll sHalf h1 h2 h3⟩

/-! ## Claim C8 -/

set_option maxRecDepth 400000 in
/-- C8: rule L7 is **not** guarded by `batteryUnderCharge ≠ 0`.  The two
fixtures `sGhost 1000000` and `sGhost 0` are identical on every real
battery slot and differ only in the SoC stored in the out-of-range cell
at index `-1` (see `sGhost`).  On a tick where no charger is assigned
(all phases float, so `batteryUnderCharge = 0`) and the loaded battery
is not normal, the decision section returns *different* load
allocations for the two fixtures — so `battery[batteryUnderCharge-1]`,
i.e. the cell at index `-1`, is read, where the claim (and the spec's
guard requirement) says the L7 refinement must be skipped. -/
theorem C8_L7_reads_cell_minus_one :
    (monitorDecide cfgAllLow inpDay (sGhost 1000000)).batteryUnderCharge = 0 ∧
    (monitorDecide cfgAllLow inpDay (sGhost 0)).batteryUnderCharge = 0 ∧
    (monitorDecide cfgAllLow inpDay (sGhost 1000000)).batteryUnderLoad = 1 ∧
    (monitorDecide cfgAllLow inpDay (sGhost 0)).batteryUnderLoad = 2 := by
  refine ⟨by decide, by decide, by decide, by decide⟩

/-! ## Projection lemmas for the allocation rules -/

theorem chargerSelect_proj (s : MonitorState) (found : Option ℕ) (bit : ℕ) :
    (chargerSelect s found bit).batteryUnderLoad = s.batteryUnderLoad ∧
    (chargerSelect s found bit).chargerOff = s.chargerOff ∧
    (chargerSelect s found bit).battery = s.battery ∧
    (chargerSelect s found bit).chargingPhase = s.chargingPhase := by
  cases found <;> exact ⟨rfl, rfl, rfl, rfl⟩

theorem loadSelect_proj (s : MonitorState) (found : Option ℕ) (bit : ℕ) :
    (loadSelect s found bit).batteryUnderCharge = s.batteryUnderCharge ∧
    (loadSelect s found bit).chargerOff = s.chargerOff ∧
    (loadSelect s found bit).battery = s.battery ∧
    (loadSelect s found bit).chargingPhase = s.chargingPhase := by
  cases found <;> exact ⟨rfl, rfl, rfl, rfl⟩

theorem chargerRule12_proj (s : MonitorState) (lowest : ℕ) :
    (chargerRule12 s lowest).batteryUnderLoad = s.batteryUnderLoad ∧
    (chargerRule12 s lowest).chargerOff = s.chargerOff ∧
    (chargerRule12 s lowest).battery = s.battery ∧
    (chargerRule12 s lowest).chargingPhase = s.chargingPhase := by
  unfold chargerRule12
  dsimp only
  split_ifs <;> exact ⟨rfl, rfl, rfl, rfl⟩

theorem chargerRule3_proj (s : MonitorState) (revScan : List ℕ) :
    (chargerRule3 s revScan).batteryUnderLoad = s.batteryUnderLoad ∧
    (chargerRule3 s revScan).chargerOff = s.chargerOff ∧
    (chargerRule3 s revScan).battery = s.battery ∧
    (chargerRule3 s revScan).chargingPhase = s.chargingPhase := by
  unfold chargerRule3
  exact chargerSelect_proj _ _ _

theorem chargerRule4_proj (cfg : ConfigGroup) (s : MonitorState) (longest : ℕ)
    (isolatable : Bool) (revScan : List ℕ) :
    (chargerRule4 cfg s longest isolatable revScan).batteryUnderLoad = s.batteryUnderLoad ∧
    (chargerRule4 cfg s longest isolatable revScan).chargerOff = s.chargerOff ∧
    (chargerRule4 cfg s longest isolatable revScan).battery = s.battery ∧
    (chargerRule4 cfg s longest isolatable revScan).chargingPhase = s.chargingPhase := by
  unfold chargerRule4
  split_ifs
  · exact chargerSelect_proj _ _ _
  · exact ⟨rfl, rfl, rfl, rfl⟩

theorem chargerRule5_proj (s : MonitorState) (revScan : List ℕ) :
    (chargerRule5 s revScan).batteryUnderLoad = s.batteryUnderLoad ∧
    (chargerRule5 s revScan).chargerOff = s.chargerOff ∧
    (chargerRule5 s revScan).battery = s.battery ∧
    (chargerRule5 s revScan).chargingPhase = s.chargingPhase := by
  unfold chargerRule5
  split_ifs
  · exact chargerSelect_proj _ _ _
  · exact ⟨rfl, rfl, rfl, rfl⟩

theorem chargerRule6_proj (s : MonitorState) (revScan : List ℕ) :
    (chargerRule6 s revScan).batteryUnderLoad = s.batteryUnderLoad ∧
    (chargerRule6 s revScan).chargerOff = s.chargerOff ∧
    (chargerRule6 s revScan).battery = s.battery ∧
    (chargerRule6 s revScan).chargingPhase = s.chargingPhase := by
  unfold chargerRule6
  split_ifs
  · exact chargerSelect_proj _ _ _
  · exact ⟨rfl, rfl, rfl, rfl⟩

theorem chargerAllocate_proj (cfg : ConfigGroup) (s : MonitorState) (lowest longest : ℕ)
    (isolatable : Bool) (revScan : List ℕ) :
    (chargerAllocate cfg s lowest longest isolatable revScan).batteryUnderLoad =
      s.batteryUnderLoad ∧
    (chargerAllocate cfg s lowest longest isolatable revScan).chargerOff = s.chargerOff ∧
    (chargerAllocate cfg s lowest longest isolatable revScan).battery = s.battery ∧
    (chargerAllocate cfg s lowest longest isolatable revScan).chargingPhase =
      s.chargingPhase := by
  unfold chargerAllocate
  split_ifs
  · exact ⟨rfl, rfl, rfl, rfl⟩
  · have h12 := chargerRule12_proj s lowest
    have h3 := chargerRule3_proj (chargerRule12 s lowest) revScan
    have h4 := chargerRule4_proj cfg (chargerRule3 (chargerRule12 s lowest) revScan)
      longest isolatable revScan
    have h5 := chargerRule5_proj (chargerRule4 cfg
      (chargerRule3 (chargerRule12 s lowest) revScan) longest isolatable revScan) revScan
    have h6 := chargerRule6_proj (chargerRule5 (chargerRule4 cfg
      (chargerRule3 (chargerRule12 s lowest) revScan) longest isolatable revScan) revScan)
      revScan
    exact ⟨(((h6.1.trans h5.1).trans h4.1).trans h3.1).trans h12.1,
      (((h6.2.1.trans h5.2.1).trans h4.2.1).trans h3.2.1).trans h12.2.1,
      (((h6.2.2.1.trans h5.2.2.1).trans h4.2.2.1).trans h3.2.2.1).trans h12.2.2.1,
      (((h6.2.2.2.trans h5.2.2.2).trans h4.2.2.2).trans h3.2.2.2).trans h12.2.2.2⟩

theorem chargerAllocate_off (cfg : ConfigGroup) (s : MonitorState) (lowest longest : ℕ)
    (isolatable : Bool) (revScan : List ℕ) (hs : s.chargerOff = true) :
    chargerAllocate cfg s lowest longest isolatable revScan = s := by
  unfold chargerAllocate
  rw [if_pos hs]

theorem loadRule123_proj (cfg : ConfigGroup) (s : MonitorState) :
    (loadRule123 cfg s).batteryUnderCharge = s.batteryUnderCharge ∧
    (loadRule123 cfg s).chargerOff = s.chargerOff ∧
    (loadRule123 cfg s).battery = s.battery ∧
    (loadRule123 cfg s).chargingPhase = s.chargingPhase := by
  unfold loadRule123
  dsimp only
  split_ifs <;> exact ⟨rfl, rfl, rfl, rfl⟩

theorem loadRule4_proj (cfg : ConfigGroup) (s : MonitorState) (longest : ℕ)
    (isolatable : Bool) (scan : List ℕ) :
    (loadRule4 cfg s longest isolatable scan).batteryUnderCharge = s.batteryUnderCharge ∧
    (loadRule4 cfg s longest isolatable scan).chargerOff = s.chargerOff ∧
    (loadRule4 cfg s longest isolatable scan).battery = s.battery ∧
    (loadRule4 cfg s longest isolatable scan).chargingPhase = s.chargingPhase := by
  unfold loadRule4
  split_ifs
  · exact loadSelect_proj _ _ _
  · exact ⟨rfl, rfl, rfl, rfl⟩

theorem loadRule5_proj (cfg : ConfigGroup) (s : MonitorState) (scan : List ℕ) :
    (loadRule5 cfg s scan).batteryUnderCharge = s.batteryUnderCharge ∧
    (loadRule5 cfg s scan).chargerOff = s.chargerOff ∧
    (loadRule5 cfg s scan).battery = s.battery ∧
    (loadRule5 cfg s scan).chargingPhase = s.chargingPhase := by
  unfold loadRule5
  split_ifs
  · exact loadSelect_proj _ _ _
  · exact ⟨rfl, rfl, rfl, rfl⟩

theorem loadRule6_proj (s : MonitorState) (scan : List ℕ) :
    (loadRule6 s scan).batteryUnderCharge = s.batteryUnderCharge ∧
    (loadRule6 s scan).chargerOff = s.chargerOff ∧
    (loadRule6 s scan).battery = s.battery ∧
    (loadRule6 s scan).chargingPhase = s.chargingPhase := by
  unfold loadRule6
  split_ifs
  · exact loadSelect_proj _ _ _
  · exact ⟨rfl, rfl, rfl, rfl⟩

theorem loadRule7_proj (cfg : ConfigGroup) (s : MonitorState) (scan : List ℕ) :
    (loadRule7 cfg s scan).batteryUnderCharge = s.batteryUnderCharge ∧
    (loadRule7 cfg s scan).chargerOff = s.chargerOff ∧
    (loadRule7 cfg s scan).battery = s.battery ∧
    (loadRule7 cfg s scan).chargingPhase = s.chargingPhase := by
  unfold loadRule7
  split_ifs
  · exact loadSelect_proj _ _ _
  · exact ⟨rfl, rfl, rfl, rfl⟩

theorem loadRule8_proj (s : MonitorState) :
    (loadRule8 s).batteryUnderCharge = s.batteryUnderCharge ∧
    (loadRule8 s).chargerOff = s.chargerOff ∧
    (loadRule8 s).battery = s.battery ∧
    (loadRule8 s).chargingPhase = s.chargingPhase := by
  unfold loadRule8
  split_ifs <;> exact ⟨rfl, rfl, rfl, rfl⟩

theorem loadAllocate_proj (cfg : ConfigGroup) (s : MonitorState) (longest : ℕ)
    (isolatable : Bool) (scan : List ℕ) :
    (loadAllocate cfg s longest isolatable scan).batteryUnderCharge =
      s.batteryUnderCharge ∧
    (loadAllocate cfg s longest isolatable scan).chargerOff = s.chargerOff ∧
    (loadAllocate cfg s longest isolatable scan).battery = s.battery ∧
    (loadAllocate cfg s longest isolatable scan).chargingPhase = s.chargingPhase := by
  unfold loadAllocate
  have h123 := loadRule123_proj cfg s
  have h4 := loadRule4_proj cfg (loadRule123 cfg s) longest isolatable scan
  have h5 := loadRule5_proj cfg (loadRule4 cfg (loadRule123 cfg s) longest isolatable scan)
    scan
  have h6 := loadRule6_proj (loadRule5 cfg
    (loadRule4 cfg (loadRule123 cfg s) longest isolatable scan) scan) scan
  have h7 := loadRule7_proj cfg (loadRule6 (loadRule5 cfg
    (loadRule4 cfg (loadRule123 cfg s) longest isolatable scan) scan) scan) scan
  have h8 := loadRule8_proj (loadRule7 cfg (loadRule6 (loadRule5 cfg
    (loadRule4 cfg (loadRule123 cfg s) longest isolatable scan) scan) scan) scan)
  exact ⟨((((h8.1.trans h7.1).trans h6.1).trans h5.1).trans h4.1).trans h123.1,
    ((((h8.2.1.trans h7.2.1).trans h6.2.1).trans h5.2.1).trans h4.2.1).trans h123.2.1,
    ((((h8.2.2.1.trans h7.2.2.1).trans h6.2.2.1).trans h5.2.2.1).trans h4.2.2.1).trans
      h123.2.2.1,
    ((((h8.2.2.2.trans h7.2.2.2).trans h6.2.2.2).trans h5.2.2.2).trans h4.2.2.2).trans
      h123.2.2.2⟩

/-! ## Projection lemmas for the post-pass and idle reset -/

theorem opassStep_globals (cfg : ConfigGroup) (inp : MeasureInputs) (s : MonitorState)
    (i : ℕ) :
    (opassStep cfg inp s i).batteryUnderCharge = s.batteryUnderCharge ∧
    (opassStep cfg inp s i).batteryUnderLoad = s.batteryUnderLoad ∧
    (opassStep cfg inp s i).chargerOff = s.chargerOff := by
  unfold opassStep setBatterySoC
  dsimp only
  split_ifs <;> exact ⟨rfl, rfl, rfl⟩

theorem opass_globals (cfg : ConfigGroup) (inp : MeasureInputs) (s : MonitorState) :
    (opass cfg inp s).batteryUnderCharge = s.batteryUnderCharge ∧
    (opass cfg inp s).batteryUnderLoad = s.batteryUnderLoad ∧
    (opass cfg inp s).chargerOff = s.chargerOff := by
  have e : opass cfg inp s =
      opassStep cfg inp (opassStep cfg inp (opassStep cfg inp s 0) 1) 2 := rfl
  rw [e]
  have h0 := opassStep_globals cfg inp s 0
  have h1 := opassStep_globals cfg inp (opassStep cfg inp s 0) 1
  have h2 := opassStep_globals cfg inp (opassStep cfg inp (opassStep cfg inp s 0) 1) 2
  exact ⟨(h2.1.trans h1.1).trans h0.1, (h2.2.1.trans h1.2.1).trans h0.2.1,
    (h2.2.2.trans h1.2.2).trans h0.2.2⟩

theorem idleResetStep_globals (cfg : ConfigGroup) (inp : MeasureInputs) (s : MonitorState)
    (i : ℕ) :
    (idleResetStep cfg inp s i).batteryUnderCharge = s.batteryUnderCharge ∧
    (idleResetStep cfg inp s i).batteryUnderLoad = s.batteryUnderLoad ∧
    (idleResetStep cfg inp s i).chargerOff = s.chargerOff := by
  unfold idleResetStep setBatterySoC
  dsimp only
  split_ifs <;> exact ⟨rfl, rfl, rfl⟩

theorem idleReset_globals (cfg : ConfigGroup) (inp : MeasureInputs) (s : MonitorState) :
    (idleReset cfg inp s).batteryUnderCharge = s.batteryUnderCharge ∧
    (idleReset cfg inp s).batteryUnderLoad = s.batteryUnderLoad ∧
    (idleReset cfg inp s).chargerOff = s.chargerOff := by
  have e : idleReset cfg inp s =
      idleResetStep cfg inp (idleResetStep cfg inp (idleResetStep cfg inp s 0) 1) 2 := rfl
  rw [e]
  have h0 := idleResetStep_globals cfg inp s 0
  have h1 := idleResetStep_globals cfg inp (idleResetStep cfg inp s 0) 1
  have h2 := idleResetStep_globals cfg inp
    (idleResetStep cfg inp (idleResetStep cfg inp s 0) 1) 2
  exact ⟨(h2.1.trans h1.1).trans h0.1, (h2.2.1.trans h1.2.1).trans h0.2.1,
    (h2.2.2.trans h1.2.2).trans h0.2.2⟩

/-! ## The chargerOff invariant of the preliminary decisions -/

theorem nightCheck_inv (inp : MeasureInputs) (scan : List ℕ) (s : MonitorState) :
    (nightCheck inp scan s).chargerOff = true →
    (nightCheck inp scan s).batteryUnderCharge = 0 := by
  unfold nightCheck
  cases hfind : scan.find? (fun (j : ℕ) =>
      decide ((s.battery (j : ℤ)).healthState ≠ missingH ∧
        inp.batteryVoltage (j : ℤ) < inp.panelVoltage + 128)) with
  | some j =>
    intro hoff
    exact Bool.noConfusion hoff
  | none => intro _; rfl

theorem allFloatCheck_inv (scan : List ℕ) (s : MonitorState)
    (hP : s.chargerOff = true → s.batteryUnderCharge = 0) :
    (allFloatCheck scan s).chargerOff = true →
    (allFloatCheck scan s).batteryUnderCharge = 0 := by
  unfold allFloatCheck
  cases hfind : scan.find? (fun (j : ℕ) =>
      decide ((s.battery (j : ℤ)).healthState ≠ missingH ∧
        s.chargingPhase (j : ℤ) ≠ floatC)) with
  | some j => exact hP
  | none => intro _; rfl

theorem monitorPrelim_inv (cfg : ConfigGroup) (inp : MeasureInputs) (s0 : MonitorState) :
    (monitorPrelim cfg inp s0).chargerOff = true →
    (monitorPrelim cfg inp s0).batteryUnderCharge = 0 := by
  unfold monitorPrelim
  exact allFloatCheck_inv _ _ (nightCheck_inv _ _ _)

/-! ## Claim C1 -/

/-- C1 (amended): at the end of every monitor tick with `numBats ≠ 1`,
`chargerOff = true` implies `batteryUnderCharge = 0`.  The single-battery
branch violates the invariant: it allocates the charger to the lone
battery regardless of `chargerOff` — see the counterexample. -/
theorem C1_chargerOff_dealloc (cfg : ConfigGroup) (inp : MeasureInputs) (s0 : MonitorState)
    (hn : decideNumBats cfg s0 ≠ 1)
    (hoff : (monitorTick cfg inp s0).chargerOff = true) :
    (monitorTick cfg inp s0).batteryUnderCharge = 0 := by
  have hI := idleReset_globals cfg inp (opass cfg inp (monitorDecide cfg inp s0))
  have hO := opass_globals cfg inp (monitorDecide cfg inp s0)
  unfold monitorTick at hoff ⊢
  rw [hI.1, hO.1]
  rw [hI.2.2, hO.2.2] at hoff
  unfold monitorDecide at hoff ⊢
  rw [if_neg hn] at hoff ⊢
  by_cases h2 : 1 < decideNumBats cfg s0
  · rw [if_pos h2] at hoff ⊢
    have hLA := loadAllocate_proj cfg
      (chargerAllocate cfg
        { monitorPrelim cfg inp s0 with
          decisionStatus := (monitorPrelim cfg inp s0).decisionStatus ||| 8192 }
        (tripleGet (decideSort cfg inp s0) (decideNumBats cfg s0 - 1))
        (longestBatteryOf (prelimBatteries cfg inp s0) (decideNumBats cfg s0))
        (decide (2 < decideNumBats cfg s0))
        (decideScan cfg inp s0).reverse)
      (longestBatteryOf (prelimBatteries cfg inp s0) (decideNumBats cfg s0))
      (decide (2 < decideNumBats cfg s0))
      (decideScan cfg inp s0)
    rw [hLA.1]
    rw [hLA.2.1] at hoff
    by_cases hc : (monitorPrelim cfg inp s0).chargerOff = true
    · have hc' : ({ monitorPrelim cfg inp s0 with
          decisionStatus := (monitorPrelim cfg inp s0).decisionStatus ||| 8192 } :
            MonitorState).chargerOff = true := hc
      rw [chargerAllocate_off cfg
        { monitorPrelim cfg inp s0 with
          decisionStatus := (monitorPrelim cfg inp s0).decisionStatus ||| 8192 }
        (tripleGet (decideSort cfg inp s0) (decideNumBats cfg s0 - 1))
        (longestBatteryOf (prelimBatteries cfg inp s0) (decideNumBats cfg s0))
        (decide (2 < decideNumBats cfg s0))
        (decideScan cfg inp s0).reverse hc']
      exact monitorPrelim_inv cfg inp s0 hc
    · have hCA := chargerAllocate_proj cfg
        { monitorPrelim cfg inp s0 with
          decisionStatus := (monitorPrelim cfg inp s0).decisionStatus ||| 8192 }
        (tripleGet (decideSort cfg inp s0) (decideNumBats cfg s0 - 1))
        (longestBatteryOf (prelimBatteries cfg inp s0) (decideNumBats cfg s0))
        (decide (2 < decideNumBats cfg s0))
        (decideScan cfg inp s0).reverse
      rw [hCA.2.1] at hoff
      exact absurd hoff hc
  · rw [if_neg h2] at hoff ⊢
    exact monitorPrelim_inv cfg inp s0 hoff

set_option maxRecDepth 400000 in
/-- C1 counterexample: with a single non-missing battery at night
(charger off), the one-battery branch still allocates the charger, so
the tick ends with `chargerOff = true` and `batteryUnderCharge = 1 ≠ 0`
— the claimed invariant fails for `numBats == 1`. -/
theorem C1_counterexample :
    numBatsOf sOneBat = 1 ∧
    (monitorTick cfgAllNormal inpNight sOneBat).chargerOff = true ∧
    (monitorTick cfgAllNormal inpNight sOneBat).batteryUnderCharge = 1 := by
  refine ⟨by decide, by decide, by decide⟩

set_option maxRecDepth 400000 in
/-- C1 witness: the amended invariant applied to a three-battery night
tick, which ends with the charger off and deallocated. -/
theorem C1_witness :
    (decideNumBats cfgAllNormal sHalf ≠ 1 ∧
     (monitorTick cfgAllNormal inpNightAll sHalf).chargerOff = true) ∧
    (monitorTick cfgAllNormal inpNightAll sHalf).batteryUnderCharge = 0 :=
  ⟨⟨by decide, by decide⟩,
    C1_chargerOff_dealloc cfgAllNormal inpNightAll sHalf (by decide) (by decide)⟩

/-! ## Health and allocation-value lemmas for the pre-pass -/

theorem removeMissingStep_health (cfg : ConfigGroup) (s : MonitorState) (i : ℕ) (j : ℤ) :
    ((removeMissingStep cfg s i).battery j).healthState = (s.battery j).healthState := by
  unfold removeMissingStep
  dsimp only
  split_ifs <;> first
    | rfl
    | exact setBatterySoC_health cfg s _ _ _

theorem removeMissingStep_bul (cfg : ConfigGroup) (s : MonitorState) (i : ℕ) :
    (removeMissingStep cfg s i).batteryUnderLoad = s.batteryUnderLoad ∨
    (removeMissingStep cfg s i).batteryUnderLoad = 0 := by
  unfold removeMissingStep setBatterySoC
  dsimp only
  split_ifs <;> first | exact Or.inl rfl | exact Or.inr rfl

theorem removeMissingStep_buc (cfg : ConfigGroup) (s : MonitorState) (i : ℕ) :
    (removeMissingStep cfg s i).batteryUnderCharge = s.batteryUnderCharge ∨
    (removeMissingStep cfg s i).batteryUnderCharge = 0 := by
  unfold removeMissingStep setBatterySoC
  dsimp only
  split_ifs <;> first | exact Or.inl rfl | exact Or.inr rfl

theorem removeMissingStep_clears_bul (cfg : ConfigGroup) (s : MonitorState) (i : ℕ)
    (hmi : (s.battery (i : ℤ)).healthState = missingH) :
    (removeMissingStep cfg s i).batteryUnderLoad ≠ i + 1 := by
  unfold removeMissingStep
  rw [if_pos hmi]
  dsimp only
  split_ifs with h1 h2 <;> simp_all

theorem removeMissingStep_clears_buc (cfg : ConfigGroup) (s : MonitorState) (i : ℕ)
    (hmi : (s.battery (i : ℤ)).healthState = missingH) :
    (removeMissingStep cfg s i).batteryUnderCharge ≠ i + 1 := by
  unfold removeMissingStep
  rw [if_pos hmi]
  dsimp only
  split_ifs with h1 h2 <;> simp_all

theorem removeMissing_eq (cfg : ConfigGroup) (s : MonitorState) :
    removeMissing cfg s =
      removeMissingStep cfg (removeMissingStep cfg (removeMissingStep cfg s 0) 1) 2 := rfl

theorem removeMissing_health (cfg : ConfigGroup) (s : MonitorState) (j : ℤ) :
    ((removeMissing cfg s).battery j).healthState = (s.battery j).healthState := by
  rw [removeMissing_eq, removeMissingStep_health, removeMissingStep_health,
    removeMissingStep_health]

theorem removeMissing_bul_ok (cfg : ConfigGroup) (s : MonitorState) :
    okIdx (removeMissing cfg s).battery (removeMissing cfg s).batteryUnderLoad := by
  by_cases h0 : (removeMissing cfg s).batteryUnderLoad = 0
  · exact Or.inl h0
  by_cases h3 : 3 < (removeMissing cfg s).batteryUnderLoad
  · exact Or.inr (Or.inl h3)
  right; right
  intro hmiss
  have hk : (removeMissing cfg s).batteryUnderLoad - 1 < 3 := by omega
  have hcast : (((removeMissing cfg s).batteryUnderLoad : ℤ) - 1) =
      (((removeMissing cfg s).batteryUnderLoad - 1 : ℕ) : ℤ) := by omega
  rw [hcast] at hmiss
  set k := (removeMissing cfg s).batteryUnderLoad - 1 with hkdef
  have hv : (removeMissing cfg s).batteryUnderLoad = k + 1 := by omega
  have hhr : (s.battery (k : ℤ)).healthState = missingH := by
    rw [← removeMissing_health cfg s (k : ℤ)]
    exact hmiss
  rw [removeMissing_eq] at hv
  have hb2 := removeMissingStep_bul cfg
    (removeMissingStep cfg (removeMissingStep cfg s 0) 1) 2
  have hb1 := removeMissingStep_bul cfg (removeMissingStep cfg s 0) 1
  interval_cases k
  · have hc := removeMissingStep_clears_bul cfg s 0 hhr
    rcases hb2 with h | h <;> rcases hb1 with h' | h' <;> omega
  · have hh0 : ((removeMissingStep cfg s 0).battery ((1 : ℕ) : ℤ)).healthState =
        missingH := by rw [removeMissingStep_health]; exact hhr
    have hc := removeMissingStep_clears_bul cfg (removeMissingStep cfg s 0) 1 hh0
    rcases hb2 with h | h <;> omega
  · have hh1 : ((removeMissingStep cfg (removeMissingStep cfg s 0) 1).battery
        ((2 : ℕ) : ℤ)).healthState = missingH := by
      rw [removeMissingStep_health, removeMissingStep_health]; exact hhr
    have hc := removeMissingStep_clears_bul cfg
      (removeMissingStep cfg (removeMissingStep cfg s 0) 1) 2 hh1
    omega

theorem removeMissing_buc_ok (cfg : ConfigGroup) (s : MonitorState) :
    okIdx (removeMissing cfg s).battery (removeMissing cfg s).batteryUnderCharge := by
  by_cases h0 : (removeMissing cfg s).batteryUnderCharge = 0
  · exact Or.inl h0
  by_cases h3 : 3 < (removeMissing cfg s).batteryUnderCharge
  · exact Or.inr (Or.inl h3)
  right; right
  intro hmiss
  have hk : (removeMissing cfg s).batteryUnderCharge - 1 < 3 := by omega
  have hcast : (((removeMissing cfg s).batteryUnderCharge : ℤ) - 1) =
      (((removeMissing cfg s).batteryUnderCharge - 1 : ℕ) : ℤ) := by omega
  rw [hcast] at hmiss
  set k := (removeMissing cfg s).batteryUnderCharge - 1 with hkdef
  have hv : (removeMissing cfg s).batteryUnderCharge = k + 1 := by omega
  have hhr : (s.battery (k : ℤ)).healthState = missingH := by
    rw [← removeMissing_health cfg s (k : ℤ)]
    exact hmiss
  rw [removeMissing_eq] at hv
  have hb2 := removeMissingStep_buc cfg
    (removeMissingStep cfg (removeMissingStep cfg s 0) 1) 2
  have hb1 := removeMissingStep_buc cfg (removeMissingStep cfg s 0) 1
  interval_cases k
  · have hc := removeMissingStep_clears_buc cfg s 0 hhr
    rcases hb2 with h | h <;> rcases hb1 with h' | h' <;> omega
  · have hh0 : ((removeMissingStep cfg s 0).battery ((1 : ℕ) : ℤ)).healthState =
        missingH := by rw [removeMissingStep_health]; exact hhr
    have hc := removeMissingStep_clears_buc cfg (removeMissingStep cfg s 0) 1 hh0
    rcases hb2 with h | h <;> omega
  · have hh1 : ((removeMissingStep cfg (removeMissingStep cfg s 0) 1).battery
        ((2 : ℕ) : ℤ)).healthState = missingH := by
      rw [removeMissingStep_health, removeMissingStep_health]; exact hhr
    have hc := removeMissingStep_clears_buc cfg
      (removeMissingStep cfg (removeMissingStep cfg s 0) 1) 2 hh1
    omega

theorem updateBatteryStep_health_not_missing (cfg : ConfigGroup) (inp : MeasureInputs)
    (s : MonitorState) (i : ℕ)
    (h : (s.battery (i : ℤ)).healthState ≠ missingH) :
    ((updateBatteryStep cfg inp s i).battery (i : ℤ)).healthState ≠ missingH := by
  unfold updateBatteryStep
  rw [if_pos h]
  simp only [Function.update_same]
  split_ifs <;> simp_all

theorem updateBatteries_health_not_missing (cfg : ConfigGroup) (inp : MeasureInputs)
    (s : MonitorState) (j : ℤ)
    (h : (s.battery j).healthState ≠ missingH) :
    ((updateBatteries cfg inp s).battery j).healthState ≠ missingH := by
  rw [updateBatteries_eq]
  by_cases h0 : j = ((0 : ℕ) : ℤ)
  · subst h0
    rw [updateBatteryStep_other _ _ _ 2 (by norm_num),
      updateBatteryStep_other _ _ _ 1 (by norm_num)]
    exact updateBatteryStep_health_not_missing cfg inp s 0 h
  by_cases h1 : j = ((1 : ℕ) : ℤ)
  · subst h1
    rw [updateBatteryStep_other _ _ _ 2 (by norm_num)]
    refine updateBatteryStep_health_not_missing cfg inp _ 1 ?_
    rw [updateBatteryStep_other _ _ _ 0 (by norm_num)]
    exact h
  by_cases h2 : j = ((2 : ℕ) : ℤ)
  · subst h2
    refine updateBatteryStep_health_not_missing cfg inp _ 2 ?_
    rw [updateBatteryStep_other _ _ _ 1 (by norm_num),
      updateBatteryStep_other _ _ _ 0 (by norm_num)]
    exact h
  · rw [updateBatteryStep_other _ _ _ 2 h2, updateBatteryStep_other _ _ _ 1 h1,
      updateBatteryStep_other _ _ _ 0 h0]
    exact h

theorem prelimBatteries_ok (cfg : ConfigGroup) (inp : MeasureInputs) (s0 : MonitorState)
    (v : ℕ) (h : okIdx (removeMissing cfg s0).battery v) :
    okIdx (prelimBatteries cfg inp s0).battery v := by
  unfold okIdx at h ⊢
  unfold prelimBatteries
  rcases h with h | h | h
  · exact Or.inl h
  · exact Or.inr (Or.inl h)
  · exact Or.inr (Or.inr (updateBatteries_health_not_missing cfg inp _ _ h))

/-! ## The second bubble sort pushes missing entries past position numBats -/

theorem missSwap12_eq (s : MonitorState) (t : ℕ × ℕ × ℕ) :
    missSwap12 s t = mswap12 (missFlag s) t := by
  unfold missSwap12 mswap12 missFlag
  by_cases h : (s.battery ((t.1 : ℤ) - 1)).healthState = missingH <;> simp [h]

theorem missSwap23_eq (s : MonitorState) (t : ℕ × ℕ × ℕ) :
    missSwap23 s t = mswap23 (missFlag s) t := by
  unfold missSwap23 mswap23 missFlag
  by_cases h : (s.battery ((t.2.1 : ℤ) - 1)).healthState = missingH <;> simp [h]

theorem fillStateSortOf_eq (s : MonitorState) :
    fillStateSortOf s = msort (missFlag s) (socSortOf s) := by
  unfold fillStateSortOf msort
  rw [missSwap12_eq, missSwap23_eq, missSwap12_eq]

theorem socSortOf_perm (s : MonitorState) : isPerm123 (socSortOf s) := by
  unfold socSortOf
  apply socSwap12_perm
  apply socSwap23_perm
  apply socSwap12_perm
  simp [isPerm123]

theorem nOf_le (m : ℕ → Bool) : nOf m ≤ 3 := by
  unfold nOf
  split_ifs <;> omega

theorem msort_nonmissing (m : ℕ → Bool) (t : ℕ × ℕ × ℕ) (ht : isPerm123 t) (p : ℕ)
    (hp : p < nOf m) : m (tripleGet (msort m t) p) = false := by
  have hp3 : p < 3 := lt_of_lt_of_le hp (nOf_le m)
  rcases ht with rfl | rfl | rfl | rfl | rfl | rfl <;>
    cases hm1 : m 1 <;> cases hm2 : m 2 <;> cases hm3 : m 3 <;>
      interval_cases p <;>
        simp_all [nOf, msort, mswap12, mswap23, tripleGet]

/-! ## Scan entries are in range and non-missing -/

theorem updateBatteryStep_missing (cfg : ConfigGroup) (inp : MeasureInputs)
    (s : MonitorState) (i : ℕ) (h : (s.battery (i : ℤ)).healthState = missingH) :
    updateBatteryStep cfg inp s i = s := by
  unfold updateBatteryStep
  rw [if_neg (fun hc => hc h)]

theorem updateBatteryStep_missing_iff (cfg : ConfigGroup) (inp : MeasureInputs)
    (s : MonitorState) (i : ℕ) (j : ℤ) :
    ((updateBatteryStep cfg inp s i).battery j).healthState = missingH ↔
      (s.battery j).healthState = missingH := by
  by_cases hj : j = (i : ℤ)
  · subst hj
    by_cases hm : (s.battery ((i : ℕ) : ℤ)).healthState = missingH
    · rw [updateBatteryStep_missing cfg inp s i hm]
    · constructor
      · intro h
        exact absurd h (updateBatteryStep_health_not_missing cfg inp s i hm)
      · intro h
        exact absurd h hm
  · rw [updateBatteryStep_other cfg inp s i hj]

theorem updateBatteries_missing_iff (cfg : ConfigGroup) (inp : MeasureInputs)
    (s : MonitorState) (j : ℤ) :
    ((updateBatteries cfg inp s).battery j).healthState = missingH ↔
      (s.battery j).healthState = missingH := by
  rw [updateBatteries_eq]
  exact ((updateBatteryStep_missing_iff cfg inp _ 2 j).trans
    (updateBatteryStep_missing_iff cfg inp _ 1 j)).trans
    (updateBatteryStep_missing_iff cfg inp s 0 j)

theorem missFlag_prelim (cfg : ConfigGroup) (inp : MeasureInputs) (s0 : MonitorState) :
    missFlag (prelimBatteries cfg inp s0) = missFlag (removeMissing cfg s0) := by
  funext x
  unfold missFlag prelimBatteries
  rw [decide_eq_decide]
  exact updateBatteries_missing_iff cfg inp _ _

theorem numBatsOf_eq_nOf (s : MonitorState) : numBatsOf s = nOf (missFlag s) := by
  have e : List.range NUM_BATS = [0, 1, 2] := rfl
  unfold numBatsOf nOf missFlag
  rw [e]
  by_cases h0 : (s.battery (0 : ℤ)).healthState = missingH <;>
    by_cases h1 : (s.battery (1 : ℤ)).healthState = missingH <;>
      by_cases h2 : (s.battery (2 : ℤ)).healthState = missingH <;>
        norm_num [List.filter, h0, h1, h2]

theorem mem_scan_cases (t : ℕ × ℕ × ℕ) (n j : ℕ) (h : j ∈ scanListOf t n) :
    ∃ p, p < n ∧ tripleGet t p = j := by
  unfold scanListOf listOf at h
  rcases n with _ | _ | _ | n
  · simp at h
  · simp [List.take] at h
    exact ⟨0, by omega, by simp [tripleGet, h]⟩
  · simp [List.take] at h
    rcases h with h | h
    · exact ⟨0, by omega, by simp [tripleGet, h]⟩
    · exact ⟨1, by omega, by simp [tripleGet, h]⟩
  · have e : List.take (n + 1 + 1 + 1) [t.1, t.2.1, t.2.2] = [t.1, t.2.1, t.2.2] := by
      apply List.take_of_length_le
      simp
    rw [e] at h
    simp at h
    rcases h with h | h | h
    · exact ⟨0, by omega, by simp [tripleGet, h]⟩
    · exact ⟨1, by omega, by simp [tripleGet, h]⟩
    · exact ⟨2, by omega, by simp [tripleGet, h]⟩

theorem tripleGet_perm_bounds (t : ℕ × ℕ × ℕ) (ht : isPerm123 t) (p : ℕ) :
    1 ≤ tripleGet t p ∧ tripleGet t p ≤ 3 := by
  rcases ht with rfl | rfl | rfl | rfl | rfl | rfl <;>
    rcases p with _ | _ | p <;> norm_num [tripleGet]

theorem decideSort_pos_good (cfg : ConfigGroup) (inp : MeasureInputs) (s0 : MonitorState)
    (p : ℕ) (hp : p < decideNumBats cfg s0) :
    goodIdx (prelimBatteries cfg inp s0) (tripleGet (decideSort cfg inp s0) p) := by
  have hsort : decideSort cfg inp s0 =
      msort (missFlag (prelimBatteries cfg inp s0))
        (socSortOf (prelimBatteries cfg inp s0)) := by
    unfold decideSort
    exact fillStateSortOf_eq _
  have hn : decideNumBats cfg s0 = nOf (missFlag (prelimBatteries cfg inp s0)) := by
    unfold decideNumBats
    rw [numBatsOf_eq_nOf, ← missFlag_prelim cfg inp s0]
  have hm := msort_nonmissing (missFlag (prelimBatteries cfg inp s0))
    (socSortOf (prelimBatteries cfg inp s0)) (socSortOf_perm _) p (hn ▸ hp)
  rw [← hsort] at hm
  have hperm : isPerm123 (decideSort cfg inp s0) := fillStateSortOf_perm _
  have hb := tripleGet_perm_bounds _ hperm p
  refine Or.inr ⟨hb.2, ?_⟩
  simp only [missFlag, decide_eq_false_iff_not] at hm
  exact hm

theorem decideScan_good (cfg : ConfigGroup) (inp : MeasureInputs) (s0 : MonitorState)
    (j : ℕ) (h : j ∈ decideScan cfg inp s0) :
    goodIdx (prelimBatteries cfg inp s0) j := by
  unfold decideScan at h
  obtain ⟨p, hpn, hpj⟩ := mem_scan_cases _ _ _ h
  rw [← hpj]
  exact decideSort_pos_good cfg inp s0 p hpn

/-! ## Allocation values surviving the pre-pass and the preliminary
decisions -/

theorem removeMissing_bul_le (cfg : ConfigGroup) (s : MonitorState) :
    (removeMissing cfg s).batteryUnderLoad ≤ s.batteryUnderLoad := by
  rw [removeMissing_eq]
  have h0 := removeMissingStep_bul cfg s 0
  have h1 := removeMissingStep_bul cfg (removeMissingStep cfg s 0) 1
  have h2 := removeMissingStep_bul cfg
    (removeMissingStep cfg (removeMissingStep cfg s 0) 1) 2
  rcases h2 with h2 | h2 <;> rcases h1 with h1 | h1 <;> rcases h0 with h0 | h0 <;> omega

theorem removeMissing_buc_le (cfg : ConfigGroup) (s : MonitorState) :
    (removeMissing cfg s).batteryUnderCharge ≤ s.batteryUnderCharge := by
  rw [removeMissing_eq]
  have h0 := removeMissingStep_buc cfg s 0
  have h1 := removeMissingStep_buc cfg (removeMissingStep cfg s 0) 1
  have h2 := removeMissingStep_buc cfg
    (removeMissingStep cfg (removeMissingStep cfg s 0) 1) 2
  rcases h2 with h2 | h2 <;> rcases h1 with h1 | h1 <;> rcases h0 with h0 | h0 <;> omega

theorem goodIdx_prelim_of_ok (cfg : ConfigGroup) (inp : MeasureInputs) (s0 : MonitorState)
    (v : ℕ) (hok : okIdx (removeMissing cfg s0).battery v) (hle : v ≤ 3) :
    goodIdx (prelimBatteries cfg inp s0) v := by
  unfold okIdx at hok
  unfold goodIdx prelimBatteries
  rcases hok with h | h | h
  · exact Or.inl h
  · omega
  · exact Or.inr ⟨hle,
      updateBatteries_health_not_missing cfg inp (removeMissing cfg s0) ((v : ℤ) - 1) h⟩

theorem prelim_bul_good (cfg : ConfigGroup) (inp : MeasureInputs) (s0 : MonitorState)
    (hb : s0.batteryUnderLoad ≤ 3) :
    goodIdx (prelimBatteries cfg inp s0) ((removeMissing cfg s0).batteryUnderLoad) := by
  refine goodIdx_prelim_of_ok cfg inp s0 _ (removeMissing_bul_ok cfg s0) ?_
  have := removeMissing_bul_le cfg s0
  omega

theorem prelim_buc_good (cfg : ConfigGroup) (inp : MeasureInputs) (s0 : MonitorState)
    (hc : s0.batteryUnderCharge ≤ 3) :
    goodIdx (prelimBatteries cfg inp s0) ((removeMissing cfg s0).batteryUnderCharge) := by
  refine goodIdx_prelim_of_ok cfg inp s0 _ (removeMissing_buc_ok cfg s0) ?_
  have := removeMissing_buc_le cfg s0
  omega

theorem updateBatteryStep_globals (cfg : ConfigGroup) (inp : MeasureInputs)
    (s : MonitorState) (i : ℕ) :
    (updateBatteryStep cfg inp s i).batteryUnderCharge = s.batteryUnderCharge ∧
    (updateBatteryStep cfg inp s i).batteryUnderLoad = s.batteryUnderLoad := by
  unfold updateBatteryStep
  dsimp only
  split_ifs <;> exact ⟨rfl, rfl⟩

theorem updateBatteries_globals (cfg : ConfigGroup) (inp : MeasureInputs)
    (s : MonitorState) :
    (updateBatteries cfg inp s).batteryUnderCharge = s.batteryUnderCharge ∧
    (updateBatteries cfg inp s).batteryUnderLoad = s.batteryUnderLoad := by
  rw [updateBatteries_eq]
  have h0 := updateBatteryStep_globals cfg inp s 0
  have h1 := updateBatteryStep_globals cfg inp (updateBatteryStep cfg inp s 0) 1
  have h2 := updateBatteryStep_globals cfg inp
    (updateBatteryStep cfg inp (updateBatteryStep cfg inp s 0) 1) 2
  exact ⟨(h2.1.trans h1.1).trans h0.1, (h2.2.trans h1.2).trans h0.2⟩

theorem nightCheck_proj (inp : MeasureInputs) (scan : List ℕ) (s : MonitorState) :
    (nightCheck inp scan s).battery = s.battery ∧
    (nightCheck inp scan s).batteryUnderLoad = s.batteryUnderLoad ∧
    (nightCheck inp scan s).chargingPhase = s.chargingPhase := by
  unfold nightCheck
  cases scan.find? (fun (j : ℕ) => decide ((s.battery (j : ℤ)).healthState ≠ missingH ∧
      inp.batteryVoltage (j : ℤ) < inp.panelVoltage + 128)) <;>
    exact ⟨rfl, rfl, rfl⟩

theorem allFloatCheck_proj (scan : List ℕ) (s : MonitorState) :
    (allFloatCheck scan s).battery = s.battery ∧
    (allFloatCheck scan s).batteryUnderLoad = s.batteryUnderLoad ∧
    (allFloatCheck scan s).chargingPhase = s.chargingPhase := by
  unfold allFloatCheck
  cases scan.find? (fun (j : ℕ) => decide ((s.battery (j : ℤ)).healthState ≠ missingH ∧
      s.chargingPhase (j : ℤ) ≠ floatC)) <;>
    exact ⟨rfl, rfl, rfl⟩

theorem chargerPhaseRelease_buc_cases (s : MonitorState) :
    (chargerPhaseRelease s).batteryUnderCharge = s.batteryUnderCharge ∨
    (chargerPhaseRelease s).batteryUnderCharge = 0 := by
  unfold chargerPhaseRelease
  split_ifs
  · exact Or.inr rfl
  · exact Or.inl rfl

theorem nightCheck_buc_cases (inp : MeasureInputs) (scan : List ℕ) (s : MonitorState) :
    (nightCheck inp scan s).batteryUnderCharge = s.batteryUnderCharge ∨
    (nightCheck inp scan s).batteryUnderCharge = 0 := by
  unfold nightCheck
  cases scan.find? (fun (j : ℕ) => decide ((s.battery (j : ℤ)).healthState ≠ missingH ∧
      inp.batteryVoltage (j : ℤ) < inp.panelVoltage + 128)) with
  | none => exact Or.inr rfl
  | some j => exact Or.inl rfl

theorem allFloatCheck_buc_cases (scan : List ℕ) (s : MonitorState) :
    (allFloatCheck scan s).batteryUnderCharge = s.batteryUnderCharge ∨
    (allFloatCheck scan s).batteryUnderCharge = 0 := by
  unfold allFloatCheck
  cases scan.find? (fun (j : ℕ) => decide ((s.battery (j : ℤ)).healthState ≠ missingH ∧
      s.chargingPhase (j : ℤ) ≠ floatC)) with
  | none => exact Or.inr rfl
  | some j => exact Or.inl rfl

theorem monitorPrelim_proj (cfg : ConfigGroup) (inp : MeasureInputs) (s0 : MonitorState) :
    (monitorPrelim cfg inp s0).battery = (prelimBatteries cfg inp s0).battery ∧
    (monitorPrelim cfg inp s0).batteryUnderLoad =
      (removeMissing cfg s0).batteryUnderLoad := by
  unfold monitorPrelim
  have h1 := (floatBulkCheck_proj cfg (decideScan cfg inp s0))
    { prelimBatteries cfg inp s0 with decisionStatus := 0 }
  have h2 := chargerPhaseRelease_proj (floatBulkCheck cfg (decideScan cfg inp s0)
    { prelimBatteries cfg inp s0 with decisionStatus := 0 })
  have h3 := nightCheck_proj inp (decideScan cfg inp s0)
    (chargerPhaseRelease (floatBulkCheck cfg (decideScan cfg inp s0)
      { prelimBatteries cfg inp s0 with decisionStatus := 0 }))
  have h4 := allFloatCheck_proj (decideScan cfg inp s0)
    (nightCheck inp (decideScan cfg inp s0)
      (chargerPhaseRelease (floatBulkCheck cfg (decideScan cfg inp s0)
        { prelimBatteries cfg inp s0 with decisionStatus := 0 })))
  constructor
  · rw [h4.1, h3.1, h2.1, h1.1]
  · rw [h4.2.1, h3.2.1, h2.2.1, h1.2.2.1]
    exact (updateBatteries_globals cfg inp (removeMissing cfg s0)).2

theorem monitorPrelim_buc_cases (cfg : ConfigGroup) (inp : MeasureInputs)
    (s0 : MonitorState) :
    (monitorPrelim cfg inp s0).batteryUnderCharge =
      (removeMissing cfg s0).batteryUnderCharge ∨
    (monitorPrelim cfg inp s0).batteryUnderCharge = 0 := by
  unfold monitorPrelim
  have h1 := ((floatBulkCheck_proj cfg (decideScan cfg inp s0))
    { prelimBatteries cfg inp s0 with decisionStatus := 0 }).2.1
  have h2 := chargerPhaseRelease_buc_cases (floatBulkCheck cfg (decideScan cfg inp s0)
    { prelimBatteries cfg inp s0 with decisionStatus := 0 })
  have h3 := nightCheck_buc_cases inp (decideScan cfg inp s0)
    (chargerPhaseRelease (floatBulkCheck cfg (decideScan cfg inp s0)
      { prelimBatteries cfg inp s0 with decisionStatus := 0 }))
  have h4 := allFloatCheck_buc_cases (decideScan cfg inp s0)
    (nightCheck inp (decideScan cfg inp s0)
      (chargerPhaseRelease (floatBulkCheck cfg (decideScan cfg inp s0)
        { prelimBatteries cfg inp s0 with decisionStatus := 0 })))
  have h0 : ({ prelimBatteries cfg inp s0 with
      decisionStatus := 0 } : MonitorState).batteryUnderCharge =
      (removeMissing cfg s0).batteryUnderCharge :=
    (updateBatteries_globals cfg inp (removeMissing cfg s0)).1
  rcases h4 with h4 | h4 <;> rcases h3 with h3 | h3 <;> rcases h2 with h2 | h2 <;> omega

/-! ## Where the allocation rules can send the charger and the load -/

theorem chargerSelect_cases (s : MonitorState) (l : List ℕ) (f : ℕ → Bool) (bit : ℕ)
    (P : ℕ → Prop) (hl : ∀ j ∈ l, P j) (hs : P s.batteryUnderCharge) :
    P ((chargerSelect s (l.find? f) bit).batteryUnderCharge) := by
  unfold chargerSelect
  cases hfind : l.find? f with
  | none => exact hs
  | some j => exact hl j (List.mem_of_find?_eq_some hfind)

theorem loadSelect_cases (s : MonitorState) (l : List ℕ) (f : ℕ → Bool) (bit : ℕ)
    (P : ℕ → Prop) (hl : ∀ j ∈ l, P j) (hs : P s.batteryUnderLoad) :
    P ((loadSelect s (l.find? f) bit).batteryUnderLoad) := by
  unfold loadSelect
  cases hfind : l.find? f with
  | none => exact hs
  | some j => exact hl j (List.mem_of_find?_eq_some hfind)

theorem chargerRule12_cases (s : MonitorState) (lowest : ℕ) (P : ℕ → Prop)
    (h0 : P 0) (hlow : P lowest) (hs : P s.batteryUnderCharge) :
    P ((chargerRule12 s lowest).batteryUnderCharge) := by
  unfold chargerRule12
  dsimp only
  split_ifs <;> first | exact h0 | exact hlow | exact hs

theorem chargerRule3_cases (s : MonitorState) (revScan : List ℕ) (P : ℕ → Prop)
    (hl : ∀ j ∈ revScan, P j) (hs : P s.batteryUnderCharge) :
    P ((chargerRule3 s revScan).batteryUnderCharge) := by
  unfold chargerRule3
  exact chargerSelect_cases s revScan _ 4 P hl hs

theorem chargerRule4_cases (cfg : ConfigGroup) (s : MonitorState) (longest : ℕ)
    (isolatable : Bool) (revScan : List ℕ) (P : ℕ → Prop)
    (hl : ∀ j ∈ revScan, P j) (hs : P s.batteryUnderCharge) :
    P ((chargerRule4 cfg s longest isolatable revScan).batteryUnderCharge) := by
  unfold chargerRule4
  split_ifs
  · exact chargerSelect_cases s revScan _ 1 P hl hs
  · exact hs

theorem chargerRule5_cases (s : MonitorState) (revScan : List ℕ) (P : ℕ → Prop)
    (hl : ∀ j ∈ revScan, P j) (hs : P s.batteryUnderCharge) :
    P ((chargerRule5 s revScan).batteryUnderCharge) := by
  unfold chargerRule5
  split_ifs
  · exact chargerSelect_cases s revScan _ 2 P hl hs
  · exact hs

theorem chargerRule6_cases (s : MonitorState) (revScan : List ℕ) (P : ℕ → Prop)
    (hl : ∀ j ∈ revScan, P j) (hs : P s.batteryUnderCharge) :
    P ((chargerRule6 s revScan).batteryUnderCharge) := by
  unfold chargerRule6
  split_ifs
  · exact chargerSelect_cases s revScan _ 3 P hl hs
  · exact hs

theorem chargerAllocate_cases (cfg : ConfigGroup) (s : MonitorState) (lowest longest : ℕ)
    (isolatable : Bool) (revScan : List ℕ) (P : ℕ → Prop)
    (hl : ∀ j ∈ revScan, P j) (h0 : P 0) (hlow : P lowest)
    (hs : P s.batteryUnderCharge) :
    P ((chargerAllocate cfg s lowest longest isolatable revScan).batteryUnderCharge) := by
  unfold chargerAllocate
  split_ifs
  · exact hs
  · exact chargerRule6_cases _ revScan P hl
      (chargerRule5_cases _ revScan P hl
        (chargerRule4_cases cfg _ longest isolatable revScan P hl
          (chargerRule3_cases _ revScan P hl
            (chargerRule12_cases s lowest P h0 hlow hs))))

theorem loadRule123_cases (cfg : ConfigGroup) (s : MonitorState) (P : ℕ → Prop)
    (h0 : P 0) (hs : P s.batteryUnderLoad) :
    P ((loadRule123 cfg s).batteryUnderLoad) := by
  unfold loadRule123
  dsimp only
  split_ifs <;> first | exact h0 | exact hs

theorem loadRule4_cases (cfg : ConfigGroup) (s : MonitorState) (longest : ℕ)
    (isolatable : Bool) (scan : List ℕ) (P : ℕ → Prop)
    (hl : ∀ j ∈ scan, P j) (hs : P s.batteryUnderLoad) :
    P ((loadRule4 cfg s longest isolatable scan).batteryUnderLoad) := by
  unfold loadRule4
  split_ifs
  · exact loadSelect_cases s scan _ 16 P hl hs
  · exact hs

theorem loadRule5_cases (cfg : ConfigGroup) (s : MonitorState) (scan : List ℕ)
    (P : ℕ → Prop) (hl : ∀ j ∈ scan, P j) (hs : P s.batteryUnderLoad) :
    P ((loadRule5 cfg s scan).batteryUnderLoad) := by
  unfold loadRule5
  split_ifs
  · exact loadSelect_cases s scan _ 32 P hl hs
  · exact hs

theorem loadRule6_cases (s : MonitorState) (scan : List ℕ)
    (P : ℕ → Prop) (hl : ∀ j ∈ scan, P j) (hs : P s.batteryUnderLoad) :
    P ((loadRule6 s scan).batteryUnderLoad) := by
  unfold loadRule6
  split_ifs
  · exact loadSelect_cases s scan _ 64 P hl hs
  · exact hs

theorem loadRule7_cases (cfg : ConfigGroup) (s : MonitorState) (scan : List ℕ)
    (P : ℕ → Prop) (hl : ∀ j ∈ scan, P j) (hs : P s.batteryUnderLoad) :
    P ((loadRule7 cfg s scan).batteryUnderLoad) := by
  unfold loadRule7
  split_ifs
  · exact loadSelect_cases s scan _ 48 P hl hs
  · exact hs

theorem loadRule8_cases (s : MonitorState) (P : ℕ → Prop)
    (hs : P s.batteryUnderLoad) (hc : P s.batteryUnderCharge) :
    P ((loadRule8 s).batteryUnderLoad) := by
  unfold loadRule8
  split_ifs
  · exact hc
  · exact hs

theorem loadAllocate_cases (cfg : ConfigGroup) (s : MonitorState) (longest : ℕ)
    (isolatable : Bool) (scan : List ℕ) (P : ℕ → Prop)
    (hl : ∀ j ∈ scan, P j) (h0 : P 0) (hs : P s.batteryUnderLoad)
    (hc : P s.batteryUnderCharge) :
    P ((loadAllocate cfg s longest isolatable scan).batteryUnderLoad) := by
  unfold loadAllocate
  have hbul7 : P ((loadRule7 cfg (loadRule6 (loadRule5 cfg
      (loadRule4 cfg (loadRule123 cfg s) longest isolatable scan) scan) scan)
        scan).batteryUnderLoad) :=
    loadRule7_cases cfg _ scan P hl
      (loadRule6_cases _ scan P hl
        (loadRule5_cases cfg _ scan P hl
          (loadRule4_cases cfg _ longest isolatable scan P hl
            (loadRule123_cases cfg s P h0 hs))))
  have hbuc7 : P ((loadRule7 cfg (loadRule6 (loadRule5 cfg
      (loadRule4 cfg (loadRule123 cfg s) longest isolatable scan) scan) scan)
        scan).batteryUnderCharge) := by
    have h123 := (loadRule123_proj cfg s).1
    have h4 := (loadRule4_proj cfg (loadRule123 cfg s) longest isolatable scan).1
    have h5 := (loadRule5_proj cfg
      (loadRule4 cfg (loadRule123 cfg s) longest isolatable scan) scan).1
    have h6 := (loadRule6_proj (loadRule5 cfg
      (loadRule4 cfg (loadRule123 cfg s) longest isolatable scan) scan) scan).1
    have h7 := (loadRule7_proj cfg (loadRule6 (loadRule5 cfg
      (loadRule4 cfg (loadRule123 cfg s) longest isolatable scan) scan) scan) scan).1
    rw [h7, h6, h5, h4, h123]
    exact hc
  exact loadRule8_cases _ P hbul7 hbuc7

theorem oneBatteryBranch_cases (s : MonitorState) (t : ℕ × ℕ × ℕ) (P : ℕ → Prop)
    (h0 : P 0) (ht1 : P t.1) :
    P ((oneBatteryBranch s t).batteryUnderLoad) := by
  unfold oneBatteryBranch
  dsimp only
  split_ifs <;> first | exact h0 | exact ht1

theorem oneBatteryBranch_battery (s : MonitorState) (t : ℕ × ℕ × ℕ) :
    (oneBatteryBranch s t).battery = s.battery := by
  unfold oneBatteryBranch
  dsimp only
  split_ifs <;> rfl

theorem monitorDecide_battery (cfg : ConfigGroup) (inp : MeasureInputs)
    (s0 : MonitorState) :
    (monitorDecide cfg inp s0).battery = (prelimBatteries cfg inp s0).battery := by
  unfold monitorDecide
  split_ifs with h1 h2
  · rw [oneBatteryBranch_battery]
    exact (monitorPrelim_proj cfg inp s0).1
  · have hCA := chargerAllocate_proj cfg
      { monitorPrelim cfg inp s0 with
        decisionStatus := (monitorPrelim cfg inp s0).decisionStatus ||| 8192 }
      (tripleGet (decideSort cfg inp s0) (decideNumBats cfg s0 - 1))
      (longestBatteryOf (prelimBatteries cfg inp s0) (decideNumBats cfg s0))
      (decide (2 < decideNumBats cfg s0))
      (decideScan cfg inp s0).reverse
    have hLA := loadAllocate_proj cfg
      (chargerAllocate cfg
        { monitorPrelim cfg inp s0 with
          decisionStatus := (monitorPrelim cfg inp s0).decisionStatus ||| 8192 }
        (tripleGet (decideSort cfg inp s0) (decideNumBats cfg s0 - 1))
        (longestBatteryOf (prelimBatteries cfg inp s0) (decideNumBats cfg s0))
        (decide (2 < decideNumBats cfg s0))
        (decideScan cfg inp s0).reverse)
      (longestBatteryOf (prelimBatteries cfg inp s0) (decideNumBats cfg s0))
      (decide (2 < decideNumBats cfg s0))
      (decideScan cfg inp s0)
    rw [hLA.2.2.1, hCA.2.2.1]
    exact (monitorPrelim_proj cfg inp s0).1
  · exact (monitorPrelim_proj cfg inp s0).1

theorem monitorDecide_bul_good (cfg : ConfigGroup) (inp : MeasureInputs)
    (s0 : MonitorState) (hb : s0.batteryUnderLoad ≤ 3) (hc : s0.batteryUnderCharge ≤ 3) :
    goodIdx (prelimBatteries cfg inp s0)
      ((monitorDecide cfg inp s0).batteryUnderLoad) := by
  have hP0 : goodIdx (prelimBatteries cfg inp s0) 0 := Or.inl rfl
  have hscan : ∀ j ∈ decideScan cfg inp s0, goodIdx (prelimBatteries cfg inp s0) j :=
    fun j hj => decideScan_good cfg inp s0 j hj
  have hrev : ∀ j ∈ (decideScan cfg inp s0).reverse,
      goodIdx (prelimBatteries cfg inp s0) j :=
    fun j hj => hscan j (List.mem_reverse.mp hj)
  have hbul : goodIdx (prelimBatteries cfg inp s0)
      ((monitorPrelim cfg inp s0).batteryUnderLoad) := by
    rw [(monitorPrelim_proj cfg inp s0).2]
    exact prelim_bul_good cfg inp s0 hb
  have hbuc : goodIdx (prelimBatteries cfg inp s0)
      ((monitorPrelim cfg inp s0).batteryUnderCharge) := by
    rcases monitorPrelim_buc_cases cfg inp s0 with h | h
    · rw [h]
      exact prelim_buc_good cfg inp s0 hc
    · rw [h]
      exact hP0
  unfold monitorDecide
  split_ifs with h1 h2
  · refine oneBatteryBranch_cases _ _ _ hP0 ?_
    have h0lt : 0 < decideNumBats cfg s0 := by omega
    exact decideSort_pos_good cfg inp s0 0 h0lt
  · refine loadAllocate_cases cfg _ _ _ _ _ hscan hP0 ?_ ?_
    · have hCA := chargerAllocate_proj cfg
        { monitorPrelim cfg inp s0 with
          decisionStatus := (monitorPrelim cfg inp s0).decisionStatus ||| 8192 }
        (tripleGet (decideSort cfg inp s0) (decideNumBats cfg s0 - 1))
        (longestBatteryOf (prelimBatteries cfg inp s0) (decideNumBats cfg s0))
        (decide (2 < decideNumBats cfg s0))
        (decideScan cfg inp s0).reverse
      rw [hCA.1]
      exact hbul
    · refine chargerAllocate_cases cfg _ _ _ _ _ _ hrev hP0 ?_ hbuc
      exact decideSort_pos_good cfg inp s0 (decideNumBats cfg s0 - 1) (by omega)
  · exact hbul

/-! ## The operational state written by the post-pass -/

theorem setBatterySoC_opState (cfg : ConfigGroup) (s : MonitorState) (i soc : ℤ)
    (j : ℤ) :
    ((setBatterySoC cfg s i soc).battery j).opState = (s.battery j).opState := by
  unfold setBatterySoC
  dsimp only
  by_cases hj : j = i
  · subst hj
    rw [Function.update_same]
    split_ifs <;> rfl
  · rw [Function.update_noteq hj]

theorem opassStep_other (cfg : ConfigGroup) (inp : MeasureInputs) (s : MonitorState)
    (i : ℕ) {j : ℤ} (hne : j ≠ (i : ℤ)) :
    (opassStep cfg inp s i).battery j = s.battery j := by
  unfold opassStep setBatterySoC
  dsimp only
  split_ifs <;> simp [Function.update_noteq hne]

theorem opassStep_self_opstate (cfg : ConfigGroup) (inp : MeasureInputs) (s : MonitorState)
    (i : ℕ) (hmiss : (s.battery (i : ℤ)).healthState ≠ missingH)
    (hbul : s.batteryUnderLoad = i + 1) :
    ((opassStep cfg inp s i).battery (i : ℤ)).opState =
      if s.batteryUnderCharge = i + 1 then chargingO else loadedO := by
  unfold opassStep
  rw [if_pos hmiss]
  dsimp only
  have hc1 : 0 < s.batteryUnderLoad ∧ s.batteryUnderLoad = i + 1 := ⟨by omega, hbul⟩
  rw [if_pos hc1]
  by_cases hbuc : s.batteryUnderCharge = i + 1
  · rw [if_pos hbuc]
    have hc2 : 0 < s.batteryUnderCharge ∧ i = s.batteryUnderCharge - 1 := by omega
    rw [if_pos hc2]
    split_ifs <;>
      simp [Function.update_same, setBatterySoC, apply_ite batteryStates.opState]
  · rw [if_neg hbuc]
    have hc2 : ¬(0 < s.batteryUnderCharge ∧ i = s.batteryUnderCharge - 1) := by omega
    rw [if_neg hc2]
    split_ifs <;>
      simp [Function.update_same, setBatterySoC, apply_ite batteryStates.opState]

theorem opass_opstate (cfg : ConfigGroup) (inp : MeasureInputs) (s : MonitorState)
    (i : ℕ) (hi : i < 3) (hmiss : (s.battery (i : ℤ)).healthState ≠ missingH)
    (hbul : s.batteryUnderLoad = i + 1) :
    ((opass cfg inp s).battery (i : ℤ)).opState =
      if s.batteryUnderCharge = i + 1 then chargingO else loadedO := by
  have e : opass cfg inp s =
      opassStep cfg inp (opassStep cfg inp (opassStep cfg inp s 0) 1) 2 := rfl
  rw [e]
  interval_cases i
  · rw [opassStep_other cfg inp _ 2 (by norm_num),
      opassStep_other cfg inp _ 1 (by norm_num)]
    exact opassStep_self_opstate cfg inp s 0 hmiss hbul
  · rw [opassStep_other cfg inp _ 2 (by norm_num)]
    have g0 := opassStep_globals cfg inp s 0
    have hmiss' : ((opassStep cfg inp s 0).battery ((1 : ℕ) : ℤ)).healthState ≠
        missingH := by
      rw [opassStep_other cfg inp s 0 (by norm_num)]
      exact hmiss
    have hbul' : (opassStep cfg inp s 0).batteryUnderLoad = 1 + 1 := by
      rw [g0.2.1]
      exact hbul
    have h := opassStep_self_opstate cfg inp (opassStep cfg inp s 0) 1 hmiss' hbul'
    rw [g0.1] at h
    exact h
  · have g0 := opassStep_globals cfg inp s 0
    have g1 := opassStep_globals cfg inp (opassStep cfg inp s 0) 1
    have hmiss' : ((opassStep cfg inp (opassStep cfg inp s 0) 1).battery
        ((2 : ℕ) : ℤ)).healthState ≠ missingH := by
      rw [opassStep_other cfg inp _ 1 (by norm_num),
        opassStep_other cfg inp s 0 (by norm_num)]
      exact hmiss
    have hbul' : (opassStep cfg inp (opassStep cfg inp s 0) 1).batteryUnderLoad =
        2 + 1 := by
      rw [g1.2.1, g0.2.1]
      exact hbul
    have h := opassStep_self_opstate cfg inp
      (opassStep cfg inp (opassStep cfg inp s 0) 1) 2 hmiss' hbul'
    rw [g1.1, g0.1] at h
    exact h

theorem idleResetStep_opState (cfg : ConfigGroup) (inp : MeasureInputs) (s : MonitorState)
    (i : ℕ) (j : ℤ) :
    ((idleResetStep cfg inp s i).battery j).opState = (s.battery j).opState := by
  unfold idleResetStep
  dsimp only
  by_cases hj : j = (i : ℤ)
  · subst hj
    split_ifs <;>
      simp [Function.update_same, setBatterySoC, apply_ite batteryStates.opState]
  · split_ifs <;>
      simp [Function.update_noteq hj, setBatterySoC, apply_ite batteryStates.opState]

theorem idleReset_opState (cfg : ConfigGroup) (inp : MeasureInputs) (s : MonitorState)
    (j : ℤ) :
    ((idleReset cfg inp s).battery j).opState = (s.battery j).opState := by
  have e : idleReset cfg inp s =
      idleResetStep cfg inp (idleResetStep cfg inp (idleResetStep cfg inp s 0) 1) 2 := rfl
  rw [e, idleResetStep_opState, idleResetStep_opState, idleResetStep_opState]

/-! ## Claim C3 -/

/-- C3 (amended): at the end of every monitor tick started from a state
whose allocation values are in range, `batteryUnderLoad = i + 1` implies
that battery `i` ends the tick with `opState = chargingO` when it is
also the battery under charge — the post-pass applies load before charge,
so `charging` overwrites `loaded` — and with `opState = loadedO`
otherwise.  The claim's "including the case where the same battery is
simultaneously `batteryUnderLoad` and `batteryUnderCharge`" is exactly
the case that fails, see the counterexample. -/
theorem C3_load_opstate (cfg : ConfigGroup) (inp : MeasureInputs) (s0 : MonitorState)
    (hb : s0.batteryUnderLoad ≤ NUM_BATS) (hc : s0.batteryUnderCharge ≤ NUM_BATS)
    (i : ℕ) (hload : (monitorTick cfg inp s0).batteryUnderLoad = i + 1) :
    ((monitorTick cfg inp s0).battery (i : ℤ)).opState =
      if (monitorTick cfg inp s0).batteryUnderCharge = i + 1 then chargingO
      else loadedO := by
  have hI := idleReset_globals cfg inp (opass cfg inp (monitorDecide cfg inp s0))
  have hO := opass_globals cfg inp (monitorDecide cfg inp s0)
  unfold monitorTick at hload ⊢
  rw [hI.2.1, hO.2.1] at hload
  rw [idleReset_opState, hI.1, hO.1]
  have hg := monitorDecide_bul_good cfg inp s0 hb hc
  rw [hload] at hg
  rcases hg with h0 | ⟨hle, hnm⟩
  · exact absurd h0 (Nat.succ_ne_zero i)
  · have hi3 : i < 3 := by omega
    have hcast : ((i + 1 : ℕ) : ℤ) - 1 = (i : ℤ) := by push_cast; ring
    rw [hcast] at hnm
    refine opass_opstate cfg inp (monitorDecide cfg inp s0) i hi3 ?_ hload
    rw [monitorDecide_battery]
    exact hnm

set_option maxRecDepth 400000 in
/-- C3 counterexample: when the battery under load is also the battery
under charge, the post-pass leaves it at `chargingO`, not `loadedO`:
with three critical batteries both allocations end on battery 3 and
`battery[2].opState = chargingO`, refuting the claim's "including the
case where the same battery is simultaneously `batteryUnderLoad` and
`batteryUnderCharge`". -/
theorem C3_counterexample :
    (monitorTick cfgCrit inpDay sHalf).batteryUnderLoad = 3 ∧
    (monitorTick cfgCrit inpDay sHalf).batteryUnderCharge = 3 ∧
    ((monitorTick cfgCrit inpDay sHalf).battery 2).opState = chargingO ∧
    ((monitorTick cfgCrit inpDay sHalf).battery 2).opState ≠ loadedO := by
  refine ⟨by decide, by decide, by decide, by decide⟩

set_option maxRecDepth 400000 in
/-- C3 witness: a tick that loads battery 2 (index 1) without charging
it ends with `battery[1].opState = loadedO`, by the amended rule. -/
theorem C3_witness :
    ((sGhost 0).batteryUnderLoad ≤ NUM_BATS ∧
     (sGhost 0).batteryUnderCharge ≤ NUM_BATS ∧
     (monitorTick cfgAllLow inpDay (sGhost 0)).batteryUnderLoad = 1 + 1) ∧
    ((monitorTick cfgAllLow inpDay (sGhost 0)).battery ((1 : ℕ) : ℤ)).opState =
      (if (monitorTick cfgAllLow inpDay (sGhost 0)).batteryUnderCharge = 1 + 1 then
        chargingO
      else loadedO) :=
  ⟨⟨by decide, by decide, by decide⟩,
    C3_load_opstate cfgAllLow inpDay (sGhost 0) (by decide) (by decide) 1 (by decide)⟩
